import Mathlib

set_option maxRecDepth 16384

/-!
# Verification of the photo-sharing backend's moderation pipeline

Shallow embedding of `backend/app.py` (HTTP service with embedded toxicity
scoring engine) and `backend/toxicity_module.py` (standalone toxicity library).

Modeling conventions:
* Python strings are Lean `String`s; `str.lower`, `str.strip`, `str.split()`
  and the `[\w']+` tokenization are modeled over the ASCII alphabet (the
  repository's non-ASCII data — Kannada script, emoji — has no case and is not
  an ASCII word character, so it passes through these operations unchanged).
* Python floats are modeled as `ℚ`; every score the code manipulates is one of
  a handful of exact decimal constants combined with `max`, so no floating
  point rounding behavior is observable in the modeled claims.  Rational
  constants are written with `mkRat` so that they evaluate inside the kernel.
* The external Hugging Face classifier is an opaque boundary; its per-call
  output is a parameter `mr : Option (String × ℚ)` (`none` = pipeline
  unavailable/failed, mapped to the code's `model_unavailable` fallback).
* The SQLite database is a record of lists of rows; each request handler is a
  pure function from the database (and request fields) to a response and an
  updated database.
-/

/-- ASCII lowercasing of a single character, as performed by Python `str.lower`
on the alphabet covered by this embedding.  Non-ASCII code points appearing in
the repository's data (Kannada script, emoji, the mojibake terms of the
standalone module) are caseless and are unaffected by `lower()`. -/
def lowerChar (c : Char) : Char :=
  match c with
  | 'A' => 'a' | 'B' => 'b' | 'C' => 'c' | 'D' => 'd' | 'E' => 'e' | 'F' => 'f'
  | 'G' => 'g' | 'H' => 'h' | 'I' => 'i' | 'J' => 'j' | 'K' => 'k' | 'L' => 'l'
  | 'M' => 'm' | 'N' => 'n' | 'O' => 'o' | 'P' => 'p' | 'Q' => 'q' | 'R' => 'r'
  | 'S' => 's' | 'T' => 't' | 'U' => 'u' | 'V' => 'v' | 'W' => 'w' | 'X' => 'x'
  | 'Y' => 'y' | 'Z' => 'z'
  | c => c

/-- Python `str.lower`. -/
def pyLower (s : String) : String := String.mk (s.data.map lowerChar)

/-- The whitespace class stripped/split by Python `str.strip()` / `str.split()`. -/
def isPyWhitespace (c : Char) : Bool :=
  c == ' ' || c == '\t' || c == '\n' || c == '\r' || c == '\x0b' || c == '\x0c'

/-- Python `str.strip()`. -/
def pyStrip (s : String) : String :=
  String.mk (((s.data.dropWhile isPyWhitespace).reverse.dropWhile isPyWhitespace).reverse)

/-- The apostrophe character (written via its code point). -/
def apos : Char := Char.ofNat 39

/-- A character matched by the regex class `[\w']` (ASCII fragment): letters,
digits, underscore, or apostrophe. -/
def isWordChar (c : Char) : Bool := c.isAlphanum || c == '_' || c == apos

/-- `matchFront pat s` is true iff `pat` is a prefix of `s`. -/
def matchFront : List Char → List Char → Bool
  | [], _ => true
  | _ :: _, [] => false
  | p :: ps, c :: cs => p == c && matchFront ps cs

/-- Python substring containment `pat in hay` on character lists. -/
def hasSub : List Char → List Char → Bool
  | [], pat => matchFront pat []
  | c :: cs, pat => matchFront pat (c :: cs) || hasSub cs pat

/-- Python substring containment `pat in hay` on strings. -/
def strHasSub (hay pat : String) : Bool := hasSub hay.data pat.data

/-- Decompose a character list into chunks: maximal runs of `[\w']` word
characters (the tokens found by `re.findall(r"[\w']+", ·)` / walked by
`re.sub(r"[\w']+", ·, ·)`), with every non-word character in a singleton
chunk of its own. -/
def chunks : List Char → List (List Char)
  | [] => []
  | c :: cs =>
    if isWordChar c then
      match chunks cs with
      | (d :: ds) :: chs =>
        if isWordChar d then (c :: d :: ds) :: chs else [c] :: (d :: ds) :: chs
      | chs => [c] :: chs
    else [c] :: chunks cs

/-- A chunk produced by `chunks` that is a `[\w']+` token (i.e. starts with a
word character). -/
def isTokenChunk (ch : List Char) : Bool :=
  match ch with
  | c :: _ => isWordChar c
  | [] => false

/-- `re.findall(r"[\w']+", s)`: the word tokens of `s`, in order. -/
def wordTokens (s : String) : List String :=
  ((chunks s.data).filter isTokenChunk).map String.mk

/-- Python `s.split()` (split on whitespace runs, dropping empty pieces). -/
def pySplitAux (cur : List Char) : List Char → List (List Char)
  | [] => if cur.isEmpty then [] else [cur]
  | c :: cs =>
    if isPyWhitespace c then
      if cur.isEmpty then pySplitAux [] cs else cur :: pySplitAux [] cs
    else pySplitAux (cur ++ [c]) cs

/-- Python `s.split()` on strings. -/
def pySplit (s : String) : List String := (pySplitAux [] s.data).map String.mk

/-- Python `max(a, b)` on rationals (returns the second argument only when it
is strictly greater, which is also first-wins on ties). -/
def pyMax (a b : ℚ) : ℚ := if b > a then b else a

/-- Python `round(q, 3)`, modeled as exact half-up rounding to 3 decimal
places (every score reached by the code is an exact multiple of 1/1000, so no
tie-breaking or binary-float behavior is observable). -/
def roundInt (q : ℚ) : ℤ := Int.fdiv (2 * q.num + q.den) (2 * q.den)

/-- Round a rational to 3 decimal places (Python `round(q, 3)`). -/
def round3 (q : ℚ) : ℚ := mkRat (roundInt (mkRat (q.num * 1000) q.den)) 1000

/-- `CUSTOM_TOXIC_WORDS` from `app.py` (insertion order of the set literal). -/
def CUSTOM_TOXIC_WORDS : List String :=
  [ "moorka", "mad", "stupid", "hate", "kill", "useless" ]

/-- `CUSTOM_TOXIC_WORDS` in lexicographic order (used to model Python's
`sorted(list(hits))` where `hits ⊆ CUSTOM_TOXIC_WORDS`). -/
def CUSTOM_TOXIC_WORDS_SORTED : List String :=
  [ "hate", "kill", "mad", "moorka", "stupid", "useless" ]

/-- `_find_custom_toxic_words`: the custom toxic words occurring as word
tokens of the lower-cased text.  The Python set `hits` is represented as the
sublist of `CUSTOM_TOXIC_WORDS` whose members occur among the tokens. -/
def find_custom_toxic_words (text : String) : Bool × List String :=
  let words := wordTokens (pyLower text)
  let hits := CUSTOM_TOXIC_WORDS.filter (fun w => words.contains w)
  (!hits.isEmpty, hits)

/-- The replacement performed by `mask_toxic_words`'s `repl` callback on one
token: an equal-length run of asterisks when the lower-cased token is in the
toxic-word set, the token itself otherwise. -/
def maskTok (toxic_words : List String) (tok : List Char) : List Char :=
  if toxic_words.contains (String.mk (tok.map lowerChar)) then
    List.replicate tok.length '*'
  else tok

/-- Left-to-right scanner translating `re.sub(r"[\w']+", repl, text)`: buffer
the current `[\w']+` token run in `acc`; each completed nonempty run is
rewritten by `repl`, every other character is copied verbatim. -/
def subScan (repl : List Char → List Char) (acc : List Char) : List Char → List Char
  | [] => if acc.isEmpty then [] else repl acc
  | c :: cs =>
    if isWordChar c then subScan repl (acc ++ [c]) cs
    else (if acc.isEmpty then [] else repl acc) ++ c :: subScan repl [] cs

/-- `mask_toxic_words(text, toxic_words=None)` from `app.py`. -/
def mask_toxic_words (text : String) (toxic_words : Option (List String)) : String :=
  if text == "" then text
  else
    let tw :=
      match toxic_words with
      | some tw => tw
      | none => (find_custom_toxic_words text).2
    String.mk (subScan (maskTok tw) [] text.data)

/-- `hard_hide_message()` from `app.py`. -/
def hard_hide_message : String := "⚠️ This comment is hidden due to toxic content"

/-- One atom of the small regular-expression fragment needed by the sarcasm
and indirect-negative patterns of `app.py`. -/
inductive RItem where
  | lit (s : String)               -- literal text
  | opt (c : Char)                 -- `c?`
  | optAny (cs : List Char)        -- `[c₁c₂]?`
  | chr (p : Char → Bool)          -- one character of a class (e.g. `\s`)
  | star (p : Char → Bool)         -- zero or more characters of a class
  | alt (ss : List String)         -- `(s₁|s₂)`
  | bnd                            -- `\b` word boundary

/-- Is the (optional) character a word character?  (`none` = text edge.) -/
def wordAt (c : Option Char) : Bool :=
  match c with
  | some c => isWordChar c
  | none => false

/-- Last character of `l`, or `prev` when `l` is empty (tracks the character
preceding the rest of the input for `\b`). -/
def endChar (prev : Option Char) (l : List Char) : Option Char :=
  match l.getLast? with
  | some c => some c
  | none => prev

/-- Backtracking matcher for the regex fragment: `mrun fuel items prev s` is
true iff some prefix of `s` matches `items`, where `prev` is the character
just before `s` (for `\b`).  `fuel` only forces structural termination: every
recursive call strictly decreases `s.length + items.length`, so any fuel above
that bound never runs out; `reSearch` always supplies such a bound. -/
def mrun : Nat → List RItem → Option Char → List Char → Bool
  | 0, _, _, _ => false
  | _ + 1, [], _, _ => true
  | fuel + 1, .bnd :: rest, prev, s =>
      (wordAt prev != wordAt s.head?) && mrun fuel rest prev s
  | fuel + 1, .lit ls :: rest, prev, s =>
      matchFront ls.data s && mrun fuel rest (endChar prev ls.data) (s.drop ls.length)
  | fuel + 1, .opt c :: rest, prev, s =>
      mrun fuel rest prev s ||
        match s with
        | x :: xs => x == c && mrun fuel rest (some x) xs
        | [] => false
  | fuel + 1, .optAny cs :: rest, prev, s =>
      mrun fuel rest prev s ||
        match s with
        | x :: xs => cs.contains x && mrun fuel rest (some x) xs
        | [] => false
  | fuel + 1, .chr p :: rest, _, s =>
      match s with
      | x :: xs => p x && mrun fuel rest (some x) xs
      | [] => false
  | fuel + 1, .star p :: rest, prev, s =>
      mrun fuel rest prev s ||
        match s with
        | x :: xs => p x && mrun fuel (.star p :: rest) (some x) xs
        | [] => false
  | fuel + 1, .alt ss :: rest, prev, s =>
      ss.any (fun a => matchFront a.data s && mrun fuel rest (endChar prev a.data) (s.drop a.length))

/-- `re.search` at every start position; `prev` is the character before the
current suffix. -/
def reSearchAux (items : List RItem) : Option Char → List Char → Bool
  | prev, [] => mrun (items.length + 1) items prev []
  | prev, c :: cs =>
      mrun ((c :: cs).length + items.length + 1) items prev (c :: cs) ||
        reSearchAux items (some c) cs

/-- `re.search(pattern, s) is not None` for the regex fragment. -/
def reSearch (items : List RItem) (s : String) : Bool := reSearchAux items none s.data

/-- `RB_SARCASM_PATTERNS` from `app.py`, one item list per regex. -/
def RB_SARCASM_PATTERNS : List (List RItem) :=
  [ [ .bnd, .lit "impressive", .bnd, .star isPyWhitespace, .lit "..",
      .star (fun c => c == '.'), .star isPyWhitespace, .lit "not", .bnd ],
    [ .bnd, .lit "yeah right", .bnd ],
    [ .bnd, .lit "good for you", .opt ',', .star isPyWhitespace, .lit "i guess", .bnd ],
    [ .bnd, .lit "wow", .optAny [ ',', '!' ], .chr isPyWhitespace, .star isPyWhitespace,
      .lit "that", .opt apos, .lit "s ", .alt [ "impressive", "great" ], .bnd,
      .star isPyWhitespace, .lit "..", .star (fun c => c == '.') ] ]

/-- `RB_INDIRECT_NEGATIVE_PATTERNS` from `app.py`. -/
def RB_INDIRECT_NEGATIVE_PATTERNS : List (List RItem) :=
  [ [ .bnd, .lit "people like you", .bnd ],
    [ .bnd, .lit "you think you", .opt apos, .lit "re better than everyone", .bnd ],
    [ .bnd, .lit "the reason things go wrong", .bnd ] ]

/-- `RB_EMOJI_DISRESPECT` from `app.py`. -/
def RB_EMOJI_DISRESPECT : List String := [ "😒", "😏", "🙄", "🤢", "😤", "😬" ]

/-- `RB_PROFANITY_WORDS` (base set united with the custom words). -/
def RB_PROFANITY_WORDS : List String :=
  [ "damn", "hell", "crap", "suck" ] ++ CUSTOM_TOXIC_WORDS

/-- `RB_INSULT_WORDS` (base set united with the custom words). -/
def RB_INSULT_WORDS : List String :=
  [ "dumb", "idiot", "stupid", "loser", "useless", "pathetic", "trash", "fake" ] ++
    CUSTOM_TOXIC_WORDS

/-- `RB_BODY_SHAMING_WORDS` from `app.py`. -/
def RB_BODY_SHAMING_WORDS : List String :=
  [ "disgusting", "ugly", "fat", "fatty", "skinny", "gross" ]

/-- `RB_HARASSMENT_PHRASES` from `app.py`. -/
def RB_HARASSMENT_PHRASES : List String :=
  [ "no one likes you", "stop embarrassing yourself", "go away", "nobody likes you" ]

/-- The per-category rule scores of `_score_rule_based`, fields in the
declaration (dict insertion) order of the Python `categories` dict. -/
structure RuleCats where
  insults : ℚ
  sarcasm : ℚ
  harassment : ℚ
  profanity : ℚ
  body_shaming : ℚ
  disrespect_emojis : ℚ
  indirect_negative : ℚ
deriving DecidableEq

/-- `categories.items()` in dict insertion order. -/
def catItems (c : RuleCats) : List (String × ℚ) :=
  [ ( "insults", c.insults ), ( "sarcasm", c.sarcasm ), ( "harassment", c.harassment ),
    ( "profanity", c.profanity ), ( "body_shaming", c.body_shaming ),
    ( "disrespect_emojis", c.disrespect_emojis ), ( "indirect_negative", c.indirect_negative ) ]

/-- Python `max(items, key=value)`: the first item with maximal value. -/
def pyMaxBySnd : List (String × ℚ) → String × ℚ
  | [] => ( "", 0 )
  | x :: xs => xs.foldl (fun best y => if y.2 > best.2 then y else best) x

/-- Python `max(values)` over a rational list (0 on the empty list, which the
code never produces). -/
def listMaxQ : List ℚ → ℚ
  | [] => 0
  | x :: xs => xs.foldl pyMax x

/-- Result record of the inner `_score_rule_based` closure. -/
structure RuleBasedResult where
  categories : RuleCats
  dominant_category : String
  rule_score : ℚ
deriving DecidableEq

/-- `_score_rule_based(t)` from `check_toxicity` (the closure reads
`custom_flag` from the enclosing scope; here it is an explicit argument). -/
def score_rule_based (custom_flag : Bool) (t : String) : RuleBasedResult :=
  let low := pyLower t
  let toks := pySplit low
  let insults0 : ℚ := if RB_INSULT_WORDS.any (fun w => toks.contains w) then mkRat 7 10 else 0
  let profanity0 : ℚ :=
    if RB_PROFANITY_WORDS.any (fun w => toks.contains w) then pyMax 0 (mkRat 6 10) else 0
  let body : ℚ :=
    if RB_BODY_SHAMING_WORDS.any (fun w => toks.contains w) then mkRat 7 10 else 0
  let harass : ℚ :=
    if RB_HARASSMENT_PHRASES.any (fun ph => strHasSub low ph) then mkRat 7 10 else 0
  let emo : ℚ :=
    if RB_EMOJI_DISRESPECT.any (fun e => strHasSub t e) then mkRat 6 10 else 0
  let sarc : ℚ :=
    if RB_SARCASM_PATTERNS.any (fun pat => reSearch pat low) then pyMax 0 (mkRat 6 10) else 0
  let indir : ℚ :=
    if RB_INDIRECT_NEGATIVE_PATTERNS.any (fun pat => reSearch pat low) then pyMax 0 (mkRat 6 10)
    else 0
  let insults := if custom_flag then pyMax insults0 (mkRat 13 20) else insults0
  let profanity := if custom_flag then pyMax profanity0 (mkRat 13 20) else profanity0
  let cats : RuleCats :=
    { insults := insults, sarcasm := sarc, harassment := harass, profanity := profanity,
      body_shaming := body, disrespect_emojis := emo, indirect_negative := indir }
  { categories := cats,
    dominant_category := (pyMaxBySnd (catItems cats)).1,
    rule_score := listMaxQ ((catItems cats).map Prod.snd) }

/-- `s.startswith(pre)`. -/
def strStartsWith (s pre : String) : Bool := matchFront pre.data s.data

/-- The `details` dict of a `check_toxicity` result on non-blank input. -/
structure ToxDetails where
  model_label : String
  model_score : ℚ
  rule_categories : RuleCats
  rule_score : ℚ
  dominant_category : String
  combined_score : ℚ
  custom_hits : List String
  final_toxic : Bool
  category : String
  score : ℚ
deriving DecidableEq

/-- A `check_toxicity` result.  `details := none` encodes the blank-input
short-circuit dict, which lacks every detail key subsequently read by
`compute_toxicity`, `classify_comment_v2` and `/analyze` (its three literal
keys `model_label`/`model_score`/`custom_hits` are read by no caller). -/
structure ToxResult where
  status : String
  message : String
  details : Option ToxDetails
deriving DecidableEq

/-- `check_toxicity(text)` from `app.py`; `mr` is the external classifier's
top (label, score) output for this text, `none` when the pipeline is
unavailable or fails (mapped to the `model_unavailable` fallback). -/
def check_toxicity (mr : Option (String × ℚ)) (text : String) : ToxResult :=
  if text == "" || pyStrip text == "" then
    { status := "clean", message := "Empty text", details := none }
  else
    let cf := find_custom_toxic_words text
    let custom_flag := cf.1
    let rb := score_rule_based custom_flag text
    let model_label := match mr with | some lb => lb.1 | none => "model_unavailable"
    let model_score : ℚ := match mr with | some lb => lb.2 | none => 0
    let is_model_toxic :=
      strStartsWith (pyLower model_label) "toxic" && decide (model_score ≥ mkRat 6 10)
    let is_rule_toxic := decide (rb.rule_score ≥ mkRat 6 10)
    let is_toxic := custom_flag || is_model_toxic || is_rule_toxic
    let combined_score :=
      pyMax (pyMax model_score rb.rule_score)
        (if custom_flag && !(is_model_toxic || is_rule_toxic) then mkRat 17 20 else 0)
    let dominant_category :=
      if rb.rule_score ≥ model_score then rb.dominant_category
      else if is_model_toxic then "toxic"
      else if custom_flag then "custom-word"
      else "neutral"
    let status := if is_toxic then "toxic" else "clean"
    let msg :=
      if status == "toxic" then
        let percent : ℤ :=
          if combined_score > 0 then roundInt (mkRat (combined_score.num * 100) combined_score.den)
          else 85
        "Your message includes sensitive content: " ++ dominant_category ++
          " (score: " ++ toString percent ++ "%). Do you still want to post?"
      else "Clean"
    { status := status, message := msg,
      details := some
        { model_label := model_label, model_score := model_score,
          rule_categories := rb.categories, rule_score := rb.rule_score,
          dominant_category := dominant_category, combined_score := combined_score,
          custom_hits :=
            CUSTOM_TOXIC_WORDS_SORTED.filter (fun w => (wordTokens (pyLower text)).contains w),
          final_toxic := status == "toxic", category := dominant_category,
          score := combined_score } }

/-- Output of `compute_toxicity` (`category` is `none` exactly when the
details dict lacks the key, i.e. Python `None`). -/
structure SimpleToxicity where
  final_toxic : Bool
  score : ℚ
  category : Option String
deriving DecidableEq

/-- `compute_toxicity(text)` from `app.py`. -/
def compute_toxicity (mr : Option (String × ℚ)) (text : String) : SimpleToxicity :=
  match (check_toxicity mr text).details with
  | some det =>
      { final_toxic := det.final_toxic, score := det.score, category := some det.category }
  | none => { final_toxic := false, score := 0, category := none }

/-- The hard-blocklist `toxic_words` list from the `comment()` route of `app.py`
(verbatim, in source order). -/
def toxic_words : List String :=
  [ "2g1c", "2 girls 1 cup", "acrotomophilia", "alabama hot pocket", "alaskan pipeline",
    "anal", "anilingus", "anus", "apeshit", "arsehole", "ass", "asshole", "assmunch",
    "auto erotic", "autoerotic", "babeland", "baby batter", "baby juice", "ball gag",
    "ball gravy", "ball kicking", "ball licking", "ball sack", "ball sucking", "bangbros",
    "bangbus", "bareback", "barely legal", "barenaked", "bastard", "bastardo", "bastinado",
    "bbw", "bdsm", "beaner", "beaners", "beaver cleaver", "beaver lips", "beastiality",
    "bestiality", "big black", "big breasts", "big knockers", "big tits", "bimbos",
    "birdlock", "bitch", "bitches", "black cock", "blonde action", "blonde on blonde action",
    "blowjob", "blow job", "blow your load", "blue waffle", "blumpkin", "bollocks",
    "bondage", "boner", "boob", "boobs", "booty call", "brown showers", "brunette action",
    "bukkake", "bulldyke", "bullet vibe", "bullshit", "bung hole", "bunghole", "busty",
    "butt", "buttcheeks", "butthole", "camel toe", "camgirl", "camslut", "camwhore",
    "carpet muncher", "carpetmuncher", "chocolate rosebuds", "cialis", "circlejerk",
    "cleveland steamer", "clit", "clitoris", "clover clamps", "clusterfuck", "cock",
    "cocks", "coprolagnia", "coprophilia", "cornhole", "coon", "coons", "creampie",
    "cum", "cumming", "cumshot", "cumshots", "cunnilingus", "cunt", "darkie", "date rape",
    "daterape", "deep throat", "deepthroat", "dendrophilia", "dick", "dildo", "dingleberry",
    "dingleberries", "dirty pillows", "dirty sanchez", "doggie style", "doggiestyle",
    "doggy style", "doggystyle", "dog style", "dolcett", "domination", "dominatrix",
    "dommes", "donkey punch", "double dong", "double penetration", "dp action", "dry hump",
    "dvda", "eat my ass", "ecchi", "ejaculation", "erotic", "erotism", "escort", "eunuch",
    "fag", "faggot", "fecal", "felch", "fellatio", "feltch", "female squirting", "femdom",
    "figging", "fingerbang", "fingering", "fisting", "foot fetish", "footjob", "frotting",
    "fuck", "fuck buttons", "fuckin", "fucking", "fucktards", "fudge packer", "fudgepacker",
    "futanari", "gangbang", "gang bang", "gay sex", "genitals", "giant cock", "girl on",
    "girl on top", "girls gone wild", "goatcx", "goatse", "god damn", "gokkun", "golden shower",
    "goodpoop", "goo girl", "goregasm", "grope", "group sex", "g-spot", "guro", "hand job",
    "handjob", "hard core", "hardcore", "hentai", "homoerotic", "honkey", "hooker",
    "horny", "hot carl", "hot chick", "how to kill", "how to murder", "huge fat", "humping",
    "incest", "intercourse", "jack off", "jail bait", "jailbait", "jelly donut", "jerk off",
    "jigaboo", "jiggaboo", "jiggerboo", "jizz", "juggs", "kike", "kinbaku", "kinkster",
    "kinky", "knobbing", "leather restraint", "leather straight jacket", "lemon party",
    "livesex", "lolita", "lovemaking", "make me come", "male squirting", "masturbate",
    "masturbating", "masturbation", "menage a trois", "milf", "missionary position",
    "mong", "motherfucker", "mound of venus", "mr hands", "muff diver", "muffdiving",
    "nambla", "nawashi", "negro", "neonazi", "nigga", "nigger", "nig nog", "nimphomania",
    "nipple", "nipples", "nsfw", "nsfw images", "nude", "nudity", "nutten", "nympho",
    "nymphomania", "octopussy", "omorashi", "one cup two girls", "one guy one jar",
    "orgasm", "orgy", "paedophile", "paki", "panties", "panty", "pedobear", "pedophile",
    "pegging", "penis", "phone sex", "piece of shit", "pikey", "pissing", "piss pig",
    "pisspig", "playboy", "pleasure chest", "pole smoker", "ponyplay", "poof", "poon",
    "poontang", "punany", "poop chute", "poopchute", "porn", "porno", "pornography",
    "prince albert piercing", "pthc", "pubes", "pussy", "queaf", "queef", "quim", "raghead",
    "raging boner", "rape", "raping", "rapist", "rectum", "reverse cowgirl", "rimjob",
    "rimming", "rosy palm", "rosy palm and her 5 sisters", "rusty trombone", "sadism",
    "santorum", "scat", "schlong", "scissoring", "semen", "sex", "sexcam", "sexo",
    "sexy", "sexual", "sexually", "sexuality", "shaved beaver", "shaved pussy", "shemale",
    "shibari", "shit", "shitblimp", "shitty", "shota", "shrimping", "skeet", "slanteye",
    "slut", "s&m", "smut", "snatch", "snowballing", "sodomize", "sodomy", "spastic",
    "spic", "splooge", "splooge moose", "spooge", "spread legs", "spunk", "strap on",
    "strapon", "strappado", "strip club", "style doggy", "suck", "sucks", "suicide girls",
    "sultry women", "swastika", "swinger", "tainted love", "taste my", "tea bagging",
    "threesome", "throating", "thumbzilla", "tied up", "tight white", "tit", "tits",
    "titties", "titty", "tongue in a", "topless", "tosser", "towelhead", "tranny",
    "tribadism", "tub girl", "tubgirl", "tushy", "twat", "twink", "twinkie", "two girls one cup",
    "undressing", "upskirt", "urethra play", "urophilia", "vagina", "venus mound",
    "viagra", "vibrator", "violet wand", "vorarephilia", "voyeur", "voyeurweb", "voyuer",
    "vulva", "wank", "wetback", "wet dream", "white power", "whore", "worldsex", "wrapping men",
    "wrinkled starfish", "xx", "xxx", "yaoi", "yellow showers", "yiffy", "zoophilia",
    "kill", "die", "murder", "violence", "attack", "destroy", "harm", "hurt", "beat up",
    "punch", "kick", "slap", "fight", "war", "bomb", "weapon", "knife", "gun", "shoot",
    "stab", "crush", "smash", "break", "ruin", "stupid", "idiot", "dumb", "loser",
    "moron", "retard", "pathetic", "worthless", "garbage", "trash", "scum", "disgusting",
    "ugly", "fat", "gross", "ಮೂರ್ಖ", "ಬೇವಕೂಫ", "ಹುಚ್ಚ", "ದುಷ್ಟ", "ಕೆಟ್ಟ", "ಚೆಂಡೆ",
    "ಬೊಳ್ಳಿ", "ದೊಂಕೆ", "ಮದಾರಿ", "ಕೋಗಿಲೆ", "ರಾಕ್ಷಸ", "ಪಿಶಾಚ", "ಹಿಡಿದುಕೊಂಡು ಸಾಯಿ", "ಚಂಡಾಲ",
    "ಮೂರ್ಖತನ", "ಬುದ್ದಿಹೀನ", "ಚೀಪ್", "ಮರಳೆ", "ಹೊಲಸು", "ಅಸಹ್ಯ", "ದಿಗಿಲು", "ಕಮೀನೆ", "ಹರಾಮಿ",
    "ಕುತ್ತ", "ಸುನ್ನ", "ಮದರ್", "ಕೂಕಲ್", "ತುಲ್ಲು", "murkha" ]

/-- The hard-blocklist `hf_toxic_patterns` list from the `comment()` route of
`app.py` (verbatim, in source order). -/
def hf_toxic_patterns : List String :=
  [ "ignore everything", "forget previous instructions", "new instructions", "chatagi",
    "pretend to be", "act as if", "roleplay as", "dan mode", "do anything now", "break free",
    "no limitations", "uncensored", "unrestricted", "without guidelines", "bypass restrictions",
    "harassment", "bullying", "stalking", "intimidation", "threatening", "aggressive behavior",
    "hostile", "abusive", "malicious", "vindictive", "identity hate", "discrimination",
    "prejudice", "bigotry", "supremacist", "extremist", "radical", "separatist", "nationalist",
    "xenophobic", "severe toxic", "extremely harmful", "dangerous content", "violent threats",
    "graphic violence", "disturbing content", "shocking material", "explicit content",
    "inappropriate material", "adult content", "nsfw", "sexual content", "graphic descriptions",
    "vulgar language", "death threat", "violence threat", "harm threat", "intimidation",
    "threatening behavior", "menacing", "coercive", "blackmail", "personal attack",
    "character assassination", "defamation", "slander", "degrading", "demeaning", "belittling",
    "humiliating", "mocking" ]

/-- A row of the `users` table. -/
structure User where
  id : Nat
  username : String
  password : String
deriving DecidableEq

/-- A row of the `posts` table. -/
structure Post where
  id : Nat
  user_id : Nat
  image_url : String
  caption : Option String
  created_at : String
deriving DecidableEq

/-- A row of the `comments` table (nullable columns are `Option`s). -/
structure CommentRow where
  id : Nat
  post_id : Nat
  user_id : Nat
  username : Option String
  text : String
  original_text : Option String
  masked_text : Option String
  toxicity_score : Option ℚ
  toxicity_category : Option String
  toxicity_reasons : Option String
  toxicity : Option String
  category : Option String
  score : Option ℚ
  created_at : String
deriving DecidableEq

/-- A row of the `likes` table. -/
structure LikeRow where
  id : Nat
  post_id : Nat
  user_id : Nat
  created_at : String
deriving DecidableEq

/-- The SQLite database: four tables as row lists, kept in insertion order
(rowid order; the routes' `ORDER BY datetime(created_at))` listings coincide
with it when timestamps are inserted monotonically, and no verified claim
depends on listing order). -/
structure DB where
  users : List User
  posts : List Post
  comments : List CommentRow
  likes : List LikeRow
deriving DecidableEq

/-- Next AUTOINCREMENT id for a table with the given ids. -/
def nextId (ids : List Nat) : Nat := ids.foldr max 0 + 1

/-- `SELECT * FROM users WHERE username = ?` (`_get_user_by_username`). -/
def findUserByName (db : DB) (name : String) : Option User :=
  db.users.find? (fun u => u.username == name)

/-- `SELECT * FROM posts WHERE id = ?`. -/
def findPostById (db : DB) (pid : Nat) : Option Post :=
  db.posts.find? (fun p => p.id == pid)

/-- `SELECT * FROM users WHERE id = ?`. -/
def findUserById (db : DB) (uid : Nat) : Option User :=
  db.users.find? (fun u => u.id == uid)

/-- Responses of `POST /comment`; `warn w t s c d` is the 200 JSON object
`{warning: w, type: t, toxicity_score: s, toxicity_category: c,
detected_word: d}`. -/
inductive CommentResp where
  | badRequest              -- 400 "username, post_id and text are required"
  | userNotFound            -- 404 "User not found"
  | postNotFound            -- 404 "Post not found"
  | warn (warning : Bool) (type : String) (toxicity_score : Option ℚ)
      (toxicity_category : Option String) (detected_word : Option String)
  | ok                      -- 200 {status: "ok"}
deriving DecidableEq

/-- The `comment()` route of `app.py`.  `mr` is the external classifier's
output for the submitted text (see `check_toxicity`); `now` is the request
timestamp.  A missing `post_id` body field and the Python-falsy `post_id = 0`
are both modeled by `post_id = 0`. -/
def comment_route (mr : Option (String × ℚ)) (db : DB) (username0 : String)
    (post_id : Nat) (text0 : String) (confirm : Bool) (now : String) :
    CommentResp × DB :=
  let username := pyStrip username0
  let text := pyStrip text0
  if username == "" || post_id == 0 || text == "" then (.badRequest, db)
  else
    match findUserByName db username with
    | none => (.userNotFound, db)
    | some user =>
      match findPostById db post_id with
      | none => (.postNotFound, db)
      | some _post =>
        let low := pyLower text
        match hf_toxic_patterns.find? (fun pat => strHasSub low pat) with
        | some pattern => (.warn true "toxic" none (some "manual") (some pattern), db)
        | none =>
          match toxic_words.find? (fun w => strHasSub low w) with
          | some w => (.warn true "toxic" none (some "manual") (some w), db)
          | none =>
            let simple := compute_toxicity mr text
            if simple.final_toxic && !confirm then
              (.warn true "toxic" (some (round3 simple.score)) simple.category none, db)
            else
              let masked : Option String :=
                if simple.final_toxic then
                  let masked_try := mask_toxic_words text none
                  some (if masked_try != text then masked_try else hard_hide_message)
                else none
              let row : CommentRow :=
                { id := nextId (db.comments.map CommentRow.id),
                  post_id := post_id, user_id := user.id, username := some user.username,
                  text := text, original_text := some text, masked_text := masked,
                  toxicity_score := some simple.score, toxicity_category := simple.category,
                  toxicity_reasons := none,
                  toxicity := some (if simple.final_toxic then "toxic" else "non-toxic"),
                  category := simple.category, score := some simple.score, created_at := now }
              (.ok, { db with comments := db.comments ++ [row] })

/-- Responses of `POST /login`. -/
inductive LoginResp where
  | badRequest      -- 400 "username and password required"
  | unauthorized    -- 401 "Invalid credentials"
  | loginSuccess    -- 200 {message: "Login successful"}
  | accountCreated  -- 200 {message: "Account created"}
deriving DecidableEq

/-- The `login()` route of `app.py`.  `generate_password_hash` /
`check_password_hash` are the external salted-digest boundary, passed as the
parameters `hash` and `chk`.  The body fields may be absent (`none`).  Note
the code strips the username but NOT the password. -/
def login_route (hash : String → String) (chk : String → String → Bool)
    (db : DB) (username0 password0 : Option String) : LoginResp × DB :=
  let username := pyStrip (username0.getD "")
  let password := password0.getD ""
  if username == "" || password == "" then (.badRequest, db)
  else
    match findUserByName db username with
    | some user =>
      if chk user.password password then (.loginSuccess, db) else (.unauthorized, db)
    | none =>
      (.accountCreated,
        { db with
            users := db.users ++
              [ { id := nextId (db.users.map User.id), username := username,
                  password := hash password } ] })

/-- Responses of `POST /like`. -/
inductive LikeResp where
  | badRequest      -- 400 "username and post_id required"
  | userNotFound    -- 404
  | postNotFound    -- 404
  | likes (count : Nat)   -- 200 {likes: count}
deriving DecidableEq

/-- The `like_post()` route of `app.py`: toggle the (post, user) like row and
return the post's like count after the toggle. -/
def like_route (db : DB) (username0 : String) (post_id : Nat) (now : String) :
    LikeResp × DB :=
  let username := pyStrip username0
  if username == "" || post_id == 0 then (.badRequest, db)
  else
    match findUserByName db username with
    | none => (.userNotFound, db)
    | some user =>
      match findPostById db post_id with
      | none => (.postNotFound, db)
      | some _post =>
        let isPair := fun (l : LikeRow) => l.post_id == post_id && l.user_id == user.id
        let likes2 :=
          match db.likes.find? isPair with
          | some _ => db.likes.filter (fun l => !isPair l)
          | none =>
              db.likes ++
                [ { id := nextId (db.likes.map LikeRow.id), post_id := post_id,
                    user_id := user.id, created_at := now } ]
        (.likes (likes2.countP (fun l => l.post_id == post_id)), { db with likes := likes2 })

/-- One item of the `GET /comments/<post_id>` response. -/
structure CommentView where
  id : Nat
  author : String
  text : String
  created_at : String
deriving DecidableEq

/-- Responses of `GET /comments/<post_id>`. -/
inductive CommentsResp where
  | postNotFound
  | ok (post_id : Nat) (comments : List CommentView)
deriving DecidableEq

/-- Python `x or y` for an optional string `x` and default `y` (both `None`
and the empty string fall through to the default). -/
def pyOrS (o : Option String) (d : String) : String :=
  match o with
  | some s => if s == "" then d else s
  | none => d

/-- The author name of a comment row: SQL `COALESCE(c.username, u.username)`
over the LEFT JOIN with `users`, then Python `or ""`. -/
def commentAuthor (db : DB) (r : CommentRow) : String :=
  pyOrS
    (match r.username with
     | some s => some s
     | none => (findUserById db r.user_id).map User.username) ""

/-- The toxicity test of the comment-read path:
`(toxicity == "toxic") or ((score or 0.0) >= 0.6)`. -/
def commentIsToxic (r : CommentRow) : Bool :=
  r.toxicity == some "toxic" || decide (r.score.getD 0 ≥ mkRat 6 10)

/-- The `get_comments()` route of `app.py` (`GET /comments/<post_id>` with
optional `viewer` query parameter, `none` when absent). -/
def get_comments_route (db : DB) (post_id : Nat) (viewer0 : Option String) :
    CommentsResp :=
  let viewer := pyStrip (viewer0.getD "")
  match findPostById db post_id with
  | none => .postNotFound
  | some post =>
    match findUserById db post.user_id with
    | none => .postNotFound     -- the INNER JOIN with users returns no post row
    | some _owner =>
      let rows := db.comments.filter (fun c => c.post_id == post_id)
      .ok post_id (rows.map (fun r =>
        let author := commentAuthor db r
        let authored_by_viewer := viewer != "" && author == viewer
        let visible_text :=
          if authored_by_viewer then pyOrS r.original_text r.text
          else if commentIsToxic r then
            pyOrS r.masked_text
              (mask_toxic_words (pyOrS r.original_text (pyOrS (some r.text) "")) none)
          else pyOrS r.original_text r.text
        { id := r.id, author := author, text := visible_text,
          created_at := r.created_at }))

/-- A one-user, one-post, otherwise empty database used by the concrete
witnesses below. -/
def dbAlice : DB :=
  { users := [ { id := 1, username := "alice", password := "h1" } ],
    posts := [ { id := 1, user_id := 1, image_url := "img", caption := none, created_at := "t0" } ],
    comments := [],
    likes := [] }

/-- `THREAT_WORDS` from `app.py`. -/
def THREAT_WORDS : List String := [ "kill", "die", "destroy", "hurt", "attack", "ruin" ]

/-- `HATE_WORDS` from `app.py`. -/
def HATE_WORDS : List String := [ "hate", "racist", "bigot", "xenophobe", "xenophobic" ]

/-- `SEXUAL_WORDS` from `app.py`. -/
def SEXUAL_WORDS : List String := [ "sex", "sexy", "nude", "naked", "nsfw" ]

/-- Python `min(a, b)` on rationals. -/
def pyMin (a b : ℚ) : ℚ := if b < a then b else a

/-- `s.endswith(suf)`. -/
def strEndsWith (s suf : String) : Bool := matchFront suf.data.reverse s.data.reverse

/-- The replacement of `classify_comment_v2`'s fallback masking:
`lambda m: "***" if m.group(0).lower() in words else m.group(0)`. -/
def starTok (words : List String) (tok : List Char) : List Char :=
  if words.contains (String.mk (tok.map lowerChar)) then "***".data else tok

/-- Stable descending insertion by score (used to model Python's stable
`list.sort(key=score, reverse=True)`). -/
def insertDescBySnd (x : String × ℚ) : List (String × ℚ) → List (String × ℚ)
  | [] => [x]
  | y :: ys => if y.2 ≥ x.2 then y :: insertDescBySnd x ys else x :: y :: ys

/-- Stable descending sort by score. -/
def sortDescBySnd (l : List (String × ℚ)) : List (String × ℚ) :=
  l.foldl (fun acc x => insertDescBySnd x acc) []

/-- Output of `classify_comment_v2`; `reasons` are (category, score) pairs. -/
structure ClassifyResult where
  combined_score : ℚ
  dominant_category : String
  reasons : List (String × ℚ)
  masked_text : String
deriving DecidableEq

/-- `classify_comment_v2(text)` from `app.py`. -/
def classify_comment_v2 (mr : Option (String × ℚ)) (text : String) : ClassifyResult :=
  let base := check_toxicity mr text
  let det := base.details
  let combined : ℚ := match det with | some d => d.combined_score | none => 0
  let low := pyLower text
  let words := wordTokens low
  let any_in := fun (set_words : List String) => set_words.any (fun w => words.contains w)
  let insult : ℚ := match det with | some d => d.rule_categories.insults | none => 0
  let harass : ℚ := match det with | some d => d.rule_categories.harassment | none => 0
  let threat : ℚ := if any_in THREAT_WORDS then pyMax 0 (mkRat 7 10) else 0
  let hate : ℚ := if any_in HATE_WORDS then pyMax 0 (mkRat 13 20) else 0
  let sexual : ℚ := if any_in SEXUAL_WORDS then pyMax 0 (mkRat 6 10) else 0
  let scores : List (String × ℚ) :=
    [ ( "insult", insult ), ( "harassment", harass ), ( "threat", threat ),
      ( "hate", hate ), ( "sexual", sexual ) ]
  let toxic_flag :=
    (match det with | some d => d.final_toxic | none => false) ||
      scores.any (fun kv => decide (kv.2 ≥ mkRat 6 10))
  let dominant :=
    if !toxic_flag then "non-toxic"
    else
      let top := pyMaxBySnd scores
      if top.2 ≥ mkRat 6 10 then top.1
      else
        match (match det with | some d => some d.dominant_category | none => none) with
        | some od =>
          if od == "custom-word" then "insult"
          else if od == "insults" || od == "harassment" then
            (if strEndsWith od "s" then String.mk od.data.dropLast else od)
          else "toxic"
        | none => "toxic"
  let reason_items0 := scores.filter (fun kv => decide (kv.2 > 0))
  let reason_items :=
    if reason_items0.isEmpty && toxic_flag then
      reason_items0 ++
        [ ( "toxic", pyMin (mkRat 6 10) (if combined == 0 then mkRat 6 10 else combined) ) ]
    else reason_items0
  let reasons := ((sortDescBySnd reason_items).take 3).map (fun kv => (kv.1, round3 kv.2))
  let masked_text :=
    if dominant == "non-toxic" then text
    else
      let masked_try := mask_toxic_words text none
      if masked_try != text then masked_try
      else String.mk (subScan (starTok words) [] text.data)
  { combined_score := round3 (if combined ≤ 1 then combined else 1),
    dominant_category := dominant,
    reasons := reasons,
    masked_text := masked_text }

/-- `LEXICONS["profanity"]` from `toxicity_module.py` (set-literal order). -/
def LEX_profanity : List String :=
  [ "wtf", "wth", "damn", "hell", "crap", "bs", "b.s", "bloody", "screw", "screwed",
    "screwoff", "piss", "pissed", "pissing", "freak", "freaking", "freakin", "holyshit",
    "holycrap", "shit", "bullshit", "bullcrap", "frick", "fricking", "sucks", "suck",
    "suckish", "sucky", "stfu", "gtfo", "omfg", "lmao", "lmfao" ]

/-- `LEXICONS["insults"]` from `toxicity_module.py` (set-literal order). -/
def LEX_insults : List String :=
  [ "stupid", "idiot", "dumb", "moron", "loser", "pathetic", "useless", "trash", "garbage",
    "clown", "joker", "fake", "toxic", "nonsense", "fool", "slow", "brainless", "mindless",
    "moorka", "huchcha", "kalla", "ketta" ]

/-- `LEXICONS["harassment"]` from `toxicity_module.py` (set-literal order). -/
def LEX_harassment : List String :=
  [ "shut up", "shutup", "go away", "get lost", "nobody likes you", "no one likes you",
    "stop talking", "stop embarrassing yourself", "you are a joke", "you are trash",
    "disgrace", "report you", "cancel you", "ruin you" ]

/-- `LEXICONS["body_shaming"]` from `toxicity_module.py` (set-literal order). -/
def LEX_body_shaming : List String :=
  [ "ugly", "disgusting", "gross", "fat", "fatty", "skinny", "hideous", "repulsive" ]

/-- `LEXICONS["hate"]` from `toxicity_module.py` (set-literal order). -/
def LEX_hate : List String :=
  [ "hate", "hateful", "racist", "racism", "bigot", "bigotry", "sexist", "misogynist",
    "xenophobe", "xenophobic", "homophobic", "intolerant", "discriminatory" ]

/-- `LEXICONS["slang"]` from `toxicity_module.py` (set-literal order). -/
def LEX_slang : List String :=
  [ "lol", "lmao", "rofl", "smh", "idgaf", "idc", "bruh", "bro", "kys", "ez", "noob",
    "rekt", "owned", "maga", "sakka" ]

/-- `LEXICONS["emojis"]` from `toxicity_module.py` (set-literal order). -/
def LEX_emojis : List String :=
  [ "\uF8FF\u00FC\u00F4\u00D1", "\uF8FF\u00FC\u00F2\u00ED", "\uF8FF\u00FC\u00F2\u00E8",
    "\uF8FF\u00FC\u00A7\u00A2", "\uF8FF\u00FC\u00A7\u00C6", "\uF8FF\u00FC\u00F2\u00A7",
    "\uF8FF\u00FC\u00F2\u00A8", "\uF8FF\u00FC\u00ED\u00A9", "\uF8FF\u00FC\u00F1\u00EF" ]

/-- `LEXICONS` from `toxicity_module.py`, as an association list in dict
insertion order. -/
def LEXICONS : List (String × List String) :=
  [ ( "profanity", LEX_profanity ), ( "insults", LEX_insults ),
    ( "harassment", LEX_harassment ), ( "body_shaming", LEX_body_shaming ),
    ( "hate", LEX_hate ), ( "slang", LEX_slang ), ( "emojis", LEX_emojis ) ]

/-- `ALL_TERMS`: the union of all lexicons (cross-category duplicates are
harmless in the membership tests it feeds). -/
def ALL_TERMS : List String :=
  LEX_profanity ++ LEX_insults ++ LEX_harassment ++ LEX_body_shaming ++
    LEX_hate ++ LEX_slang ++ LEX_emojis

/-- `CATEGORY_PRIORITY` from `toxicity_module.py`. -/
def CATEGORY_PRIORITY : List String :=
  [ "hate", "harassment", "profanity", "insults", "body_shaming", "slang", "emojis" ]

/-- `STEM_CANDIDATES`: lexicon terms of length 3–6 that are purely alphabetic
(every such term in the lexicons is ASCII, so `Char.isAlpha` models
`str.isalpha`). -/
def STEM_CANDIDATES : List String :=
  ALL_TERMS.filter (fun term =>
    decide (3 ≤ term.length) && decide (term.length ≤ 6) && term.data.all Char.isAlpha)

/-- The explicit characters of `_PUNCT_RE`'s class (the backtick, braces and
apostrophe are written via escapes / `apos`). -/
def modPunctChars : List Char :=
  "\\!\"#$%&()*+,-./:;<=>?@[]^_\x60\x7b|\x7d~".data ++ [apos]

/-- The character class of `_PUNCT_RE`:
ranges U+2000–U+206F and U+2E00–U+2E7F plus the explicit punctuation. -/
def isModPunct (c : Char) : Bool :=
  (decide (0x2000 ≤ c.toNat) && decide (c.toNat ≤ 0x206F)) ||
    (decide (0x2E00 ≤ c.toNat) && decide (c.toNat ≤ 0x2E7F)) ||
    modPunctChars.contains c

/-- `_normalize(text)`: the lower-cased stripped text, and its word tokens
after the punctuation class is replaced by spaces. -/
def mod_normalize (text : String) : String × List String :=
  let t := pyLower (pyStrip text)
  let t_no_punct := String.mk (t.data.map (fun c => if isModPunct c then ' ' else c))
  (t, wordTokens t_no_punct)

/-- The set `matched_by_cat[cat]` computed by `_rule_check` for a category
with term list `terms`: terms matched by (1) exact token equality, (2) the
phrase/emoji raw-containment pass (a term containing a space, or containing a
character that is a member of the 4-character emoji-glyph string set — which a
single character never is, reproduced verbatim), or (3) the stem pass (a stem
candidate occurring as a substring of some token). -/
def matchedTerms (text : String) (terms : List String) : List String :=
  let rawToks := mod_normalize text
  terms.filter (fun term =>
    rawToks.2.contains term ||
      ((strHasSub term " " ||
          term.data.any (fun ch => LEX_emojis.contains (String.mk [ch]))) &&
        strHasSub rawToks.1 term) ||
      (STEM_CANDIDATES.contains term && ALL_TERMS.contains term &&
        rawToks.2.any (fun tok => strHasSub tok term)))

/-- The category keys of `LEXICONS`, in dict insertion order. -/
def LEX_KEYS : List String := LEXICONS.map Prod.fst

/-- The lexicon of a category key. -/
def lexOf (cat : String) : List String :=
  ((LEXICONS.find? (fun kv => kv.1 == cat)).map Prod.snd).getD []

/-- `len(matched_by_cat[cat])`: the number of the category's terms matched in
the text (each lexicon list is duplicate-free, so this is the Python set
size). -/
def countOf (text cat : String) : Nat := (matchedTerms text (lexOf cat)).length

/-- Python `max` on a nonempty list of naturals (0 for the empty list, which
the code never passes). -/
def listMaxN : List Nat → Nat
  | [] => 0
  | x :: xs => xs.foldl Nat.max x

/-- `CATEGORY_PRIORITY.index(c)` (7 when absent, which the code never hits). -/
def priorityIdx (c : String) : Nat :=
  (CATEGORY_PRIORITY.findIdx? (fun x => x == c)).getD 7

/-- Stable insertion into a list sorted by ascending priority index. -/
def insertByIdx (x : String) : List String → List String
  | [] => [x]
  | y :: ys => if priorityIdx y ≤ priorityIdx x then y :: insertByIdx x ys else x :: y :: ys

/-- `candidates.sort(key=lambda c: CATEGORY_PRIORITY.index(c))`: stable sort
by ascending priority index. -/
def sortByIdx (l : List String) : List String := l.foldl (fun acc x => insertByIdx x acc) []

/-- `_rule_check(text)` from `toxicity_module.py`:
`(is_toxic, category, matched_words)`. -/
def mod_rule_check (text : String) : Bool × Option String × List String :=
  let cat_counts :=
    (LEX_KEYS.map (fun k => (k, countOf text k))).filter (fun kc => decide (0 < kc.2))
  if cat_counts.isEmpty then (false, none, [])
  else
    let top_count := listMaxN (cat_counts.map Prod.snd)
    let candidates := (cat_counts.filter (fun kc => kc.2 == top_count)).map Prod.fst
    let best_cat := (sortByIdx candidates).headD ""
    (true, some best_cat, matchedTerms text (lexOf best_cat))

/-! ## Chunk decomposition lemmas for the `re.sub` scanner -/

/-- Rewrite one chunk: tokens through `repl`, other chunks verbatim. -/
def chunkEmit (repl : List Char → List Char) (ch : List Char) : List Char :=
  if isTokenChunk ch then repl ch else ch

/-- The chunk-wise view of `re.sub(r"[\w']+", repl, ·)`. -/
def chunkMap (repl : List Char → List Char) (l : List Char) : List Char :=
  ((chunks l).map (chunkEmit repl)).flatten

/-- `subScan` with a pending buffered token `acc`, expressed chunk-wise:
`acc` merges into the first chunk of `l` when that chunk is a token. -/
def mergeEmit (repl : List Char → List Char) (acc : List Char) (l : List Char) : List Char :=
  match chunks l with
  | ch :: chs =>
    if isTokenChunk ch then
      (if (acc ++ ch).isEmpty then [] else repl (acc ++ ch)) ++
        (chs.map (chunkEmit repl)).flatten
    else
      (if acc.isEmpty then [] else repl acc) ++ ((ch :: chs).map (chunkEmit repl)).flatten
  | [] => if acc.isEmpty then [] else repl acc

theorem mergeEmit_nil (repl : List Char → List Char) (l : List Char) :
    mergeEmit repl [] l = chunkMap repl l := by
  unfold mergeEmit chunkMap
  cases h : chunks l with
  | nil => simp
  | cons ch chs =>
    by_cases ht : isTokenChunk ch = true
    · cases ch with
      | nil => simp [isTokenChunk] at ht
      | cons c cs => simp [ht, chunkEmit]
    · simp [ht, chunkEmit]

theorem subScan_eq_mergeEmit (repl : List Char → List Char) (l : List Char) :
    ∀ acc, subScan repl acc l = mergeEmit repl acc l := by
  induction l with
  | nil => intro acc; rfl
  | cons c cs ih =>
    intro acc
    by_cases hw : isWordChar c = true
    · rw [show subScan repl acc (c :: cs) = subScan repl (acc ++ [c]) cs by
        simp [subScan, hw]]
      rw [ih (acc ++ [c])]
      unfold mergeEmit
      cases h : chunks cs with
      | nil =>
        simp only [chunks, hw, h, if_true]
        simp [isTokenChunk, hw]
      | cons ch chs =>
        cases ch with
        | nil =>
          simp only [chunks, hw, h, if_true]
          simp [isTokenChunk, hw, chunkEmit]
        | cons d ds =>
          by_cases hd : isWordChar d = true
          · simp only [chunks, hw, h, if_true, hd]
            simp [isTokenChunk, hw, hd, List.append_assoc]
          · simp only [chunks, hw, h, if_true, hd]
            simp [isTokenChunk, hw, hd]
    · rw [show subScan repl acc (c :: cs) =
          (if acc.isEmpty then [] else repl acc) ++ c :: subScan repl [] cs by
        simp [subScan, hw]]
      rw [ih [], mergeEmit_nil]
      unfold mergeEmit chunkMap
      simp only [chunks, hw, if_false]
      simp [isTokenChunk, hw, chunkEmit]

theorem subScan_eq_chunkMap (repl : List Char → List Char) (l : List Char) :
    subScan repl [] l = chunkMap repl l := by
  rw [subScan_eq_mergeEmit, mergeEmit_nil]

theorem chunks_flatten (l : List Char) : (chunks l).flatten = l := by
  induction l with
  | nil => rfl
  | cons c cs ih =>
    by_cases hw : isWordChar c = true
    · cases h : chunks cs with
      | nil =>
        have hcs : cs = [] := by
          have := ih; rw [h] at this; simpa using this.symm
        simp only [chunks, hw, h, if_true]
        simp [hcs]
      | cons ch chs =>
        cases ch with
        | nil =>
          simp only [chunks, hw, h, if_true]
          rw [← ih, h]
          simp
        | cons d ds =>
          by_cases hd : isWordChar d = true
          · simp only [chunks, hw, h, if_true, hd]
            rw [← ih, h]
            simp
          · simp only [chunks, hw, h, if_true, hd]
            rw [← ih, h]
            simp
    · simp only [chunks, hw, if_false, List.flatten_cons]
      simp [ih]

theorem chunks_tokenChunk_all_word (l : List Char) :
    ∀ ch ∈ chunks l, isTokenChunk ch = true → ch.all isWordChar := by
  induction l with
  | nil => intro ch h; simp [chunks] at h
  | cons c cs ih =>
    intro ch hch ht
    by_cases hw : isWordChar c = true
    · rcases h : chunks cs with _ | ⟨_ | ⟨d, ds⟩, chs⟩
      · rw [chunks, if_pos hw, h] at hch
        simp at hch
        subst hch
        simp [hw]
      · rw [chunks, if_pos hw, h] at hch
        simp at hch
        rcases hch with hch | hch | hch
        · subst hch; simp [hw]
        · subst hch; simp [isTokenChunk] at ht
        · exact ih ch (by rw [h]; simp [hch]) ht
      · by_cases hd : isWordChar d = true
        · simp only [chunks, hw, h, if_true, hd, if_pos] at hch
          simp at hch
          rcases hch with hch | hch
          · subst hch
            have := ih (d :: ds) (by rw [h]; simp) (by simp [isTokenChunk, hd])
            simp at this ⊢
            exact ⟨hw, hd, this.2⟩
          · exact ih ch (by rw [h]; simp [hch]) ht
        · simp only [chunks, hw, h, if_true, hd] at hch
          simp at hch
          rcases hch with hch | hch | hch
          · subst hch; simp [hw]
          · subst hch; simp [isTokenChunk, hd] at ht
          · exact ih ch (by rw [h]; simp [hch]) ht
    · rw [chunks, if_neg hw] at hch
      simp at hch
      rcases hch with hch | hch
      · subst hch; simp [isTokenChunk, hw] at ht
      · exact ih ch hch ht

theorem isWordChar_lowerChar (c : Char) : isWordChar (lowerChar c) = isWordChar c := by
  unfold lowerChar
  split <;> rfl

theorem chunks_map_lower (l : List Char) :
    chunks (l.map lowerChar) = (chunks l).map (fun ch => ch.map lowerChar) := by
  induction l with
  | nil => rfl
  | cons c cs ih =>
    by_cases hw : isWordChar c = true
    · have hw2 : isWordChar (lowerChar c) = true := by rw [isWordChar_lowerChar]; exact hw
      cases h : chunks cs with
      | nil =>
        simp only [List.map_cons, chunks, hw, hw2, if_true, ih, h]
        try simp
      | cons ch chs =>
        cases ch with
        | nil =>
          simp only [List.map_cons, chunks, hw, hw2, if_true, ih, h, List.map_nil]
          try simp
        | cons d ds =>
          by_cases hd : isWordChar d = true
          · have hd2 : isWordChar (lowerChar d) = true := by
              rw [isWordChar_lowerChar]; exact hd
            simp only [List.map_cons, chunks, hw, hw2, if_true, ih, h, hd, hd2]
          · have hd2 : isWordChar (lowerChar d) = false := by
              rw [isWordChar_lowerChar]; simpa using hd
            simp only [List.map_cons, chunks, hw, hw2, if_true, ih, h, hd2]
            try rw [if_neg hd]
            try simp
    · have hw2 : isWordChar (lowerChar c) = false := by
        rw [isWordChar_lowerChar]; simpa using hw
      simp only [List.map_cons, chunks, hw2, hw, if_false, Bool.false_eq_true, ih]
      simp

theorem token_chunk_mem_wordTokens (s : String) (ch : List Char)
    (hch : ch ∈ chunks s.data) (ht : isTokenChunk ch = true) :
    (wordTokens (pyLower s)).contains (String.mk (ch.map lowerChar)) = true := by
  unfold wordTokens pyLower
  have hdata : (String.mk (s.data.map lowerChar)).data = s.data.map lowerChar := rfl
  rw [hdata, chunks_map_lower]
  have ht2 : isTokenChunk (ch.map lowerChar) = true := by
    cases ch with
    | nil => simp [isTokenChunk] at ht
    | cons c cs => simpa [isTokenChunk, isWordChar_lowerChar] using ht
  have hmem : ch.map lowerChar ∈
      ((chunks s.data).map (fun x => x.map lowerChar)).filter isTokenChunk := by
    rw [List.mem_filter]
    exact ⟨List.mem_map_of_mem _ hch, ht2⟩
  simp only [List.contains_eq_any_beq, List.any_eq_true]
  refine ⟨String.mk (ch.map lowerChar), List.mem_map_of_mem _ hmem, ?_⟩
  simp

/-! ## Claims C4, C9: `mask_toxic_words` -/

/-- `mask_toxic_words` as the spec describes it: the text decomposes into
`[\w']+` tokens and other characters; a token whose lower-cased form is in the
toxic-word set becomes an equal-length run of asterisks, and every other chunk
(punctuation, spacing, remaining tokens) is kept verbatim. -/
def maskSpec (toxic_words : List String) (text : String) : String :=
  String.mk (((chunks text.data).map (fun ch =>
    if isTokenChunk ch && toxic_words.contains (String.mk (ch.map lowerChar)) then
      List.replicate ch.length '*'
    else ch)).flatten)

theorem mask_eq_maskSpec_core (tw : List String) (text : String) :
    String.mk (subScan (maskTok tw) [] text.data) = maskSpec tw text := by
  unfold maskSpec
  rw [subScan_eq_chunkMap]
  unfold chunkMap
  congr 1
  congr 1
  apply List.map_congr_left
  intro ch _
  unfold chunkEmit maskTok
  by_cases ht : isTokenChunk ch = true
  · simp [ht]
  · simp [ht]

/-- Claim C4: `mask_toxic_words` replaces exactly those tokens whose
lower-cased form is in the (supplied or freshly computed) toxic-word set with
an equal-length run of asterisks and leaves all punctuation, spacing and other
tokens verbatim (the chunk-wise `maskSpec`); in particular
`mask_toxic_words("I HATE you")` with a set containing `"hate"` returns
`"I **** you"`. -/
theorem C4_mask_toxic_words_is_tokenwise_masking :
    (∀ (tw : List String) (text : String),
        mask_toxic_words text (some tw) = maskSpec tw text) ∧
    (∀ text : String,
        mask_toxic_words text none = maskSpec (find_custom_toxic_words text).2 text) ∧
    mask_toxic_words "I HATE you" (some [ "hate" ]) = "I **** you" := by
  refine ⟨fun tw text => ?_, fun text => ?_, by decide⟩
  · by_cases h : text = ""
    · subst h; rfl
    · have hne : (text == "") = false := by simpa using h
      unfold mask_toxic_words
      rw [hne]
      simp only [Bool.false_eq_true, if_false]
      exact mask_eq_maskSpec_core tw text
  · by_cases h : text = ""
    · subst h; rfl
    · have hne : (text == "") = false := by simpa using h
      unfold mask_toxic_words
      rw [hne]
      simp only [Bool.false_eq_true, if_false]
      exact mask_eq_maskSpec_core _ text

theorem maskTok_length (tw : List String) (ch : List Char) :
    (maskTok tw ch).length = ch.length := by
  unfold maskTok
  split <;> simp

/-- Claim C9: for every input string and every toxic-word set (supplied or
freshly computed), `mask_toxic_words` returns a string of exactly the same
length as the input: each masked token becomes the same number of asterisks
and no other character is inserted or deleted. -/
theorem C9_mask_toxic_words_preserves_length
    (toxic_words : Option (List String)) (text : String) :
    (mask_toxic_words text toxic_words).length = text.length := by
  by_cases h : text = ""
  · subst h; cases toxic_words <;> rfl
  · have hne : (text == "") = false := by simpa using h
    unfold mask_toxic_words
    rw [hne]
    simp only [Bool.false_eq_true, if_false]
    show (subScan (maskTok _) [] text.data).length = text.data.length
    rw [subScan_eq_chunkMap]
    unfold chunkMap
    rw [List.length_flatten]
    conv_rhs => rw [← chunks_flatten text.data, List.length_flatten]
    congr 1
    rw [List.map_map]
    apply List.map_congr_left
    intro ch _
    simp only [Function.comp_apply]
    unfold chunkEmit
    split
    · exact maskTok_length _ ch
    · rfl

/-! ## Claim C5: the v2 masking fallback -/

/-- The spec's description of the v2 fallback masking: every `[\w']+` token of
the text is replaced by the literal string `"***"` (the entire message is
starred); all other characters are kept. -/
def starEveryToken (text : String) : String :=
  String.mk (((chunks text.data).map (fun ch =>
    if isTokenChunk ch then "***".data else ch)).flatten)

theorem star_fallback_eq (text : String) :
    String.mk (subScan (starTok (wordTokens (pyLower text))) [] text.data) =
      starEveryToken text := by
  unfold starEveryToken
  rw [subScan_eq_chunkMap]
  unfold chunkMap
  congr 1
  congr 1
  apply List.map_congr_left
  intro ch hch
  unfold chunkEmit starTok
  by_cases ht : isTokenChunk ch = true
  · simp only [ht, if_true, token_chunk_mem_wordTokens text ch hch ht]
  · simp [ht]

theorem classify_masked_shape (mr : Option (String × ℚ)) (text : String) :
    (classify_comment_v2 mr text).masked_text =
      (if (classify_comment_v2 mr text).dominant_category == "non-toxic" then text
       else if mask_toxic_words text none != text then mask_toxic_words text none
       else String.mk (subScan (starTok (wordTokens (pyLower text))) [] text.data)) := rfl

/-- Claim C5: for every text whose `classify_comment_v2` dominant category is
not `"non-toxic"`, `masked_text` is the custom-word mask of the text when that
mask changes the text, and otherwise every token of the text is replaced by
the literal string `"***"` (the whole message is starred); for a text whose
dominant category is `"non-toxic"`, `masked_text` is the input unchanged. -/
theorem C5_classify_v2_masked_text (mr : Option (String × ℚ)) (text : String) :
    ((classify_comment_v2 mr text).dominant_category ≠ "non-toxic" →
      (classify_comment_v2 mr text).masked_text =
        (if mask_toxic_words text none ≠ text then mask_toxic_words text none
         else starEveryToken text)) ∧
    ((classify_comment_v2 mr text).dominant_category = "non-toxic" →
      (classify_comment_v2 mr text).masked_text = text) := by
  constructor
  · intro hd
    rw [classify_masked_shape]
    rw [if_neg (by simpa using hd)]
    by_cases hm : mask_toxic_words text none = text
    · rw [if_neg (by simpa using hm), if_neg (by simpa using hm)]
      exact star_fallback_eq text
    · rw [if_pos (by simpa using hm), if_pos (by simpa using hm)]
  · intro hd
    rw [classify_masked_shape]
    rw [if_pos (by simpa using hd)]

/-- Concrete instance of C5: `"you are dumb"` is rule-toxic, no custom word is
present so the custom mask changes nothing, and the whole message is
starred. -/
theorem C5_classify_v2_masked_text_witness :
    (classify_comment_v2 none "you are dumb").dominant_category ≠ "non-toxic" ∧
    (classify_comment_v2 none "you are dumb").masked_text =
      (if mask_toxic_words "you are dumb" none ≠ "you are dumb" then
        mask_toxic_words "you are dumb" none
       else starEveryToken "you are dumb") :=
  ⟨by decide, (C5_classify_v2_masked_text none "you are dumb").1 (by decide)⟩

/-! ## Claim C6: login input validation -/

/-- Claim C6, counterexample: the claim says a whitespace-only password is
rejected with 400 (InvalidInput), but `login()` never trims the password —
`" "` is truthy, validation passes, and the login proceeds (here:
auto-registration succeeds).  `fun p => p` stands in for the external hash
function; the validation path does not depend on it. -/
theorem C6_counterexample_whitespace_password :
    pyStrip " " = "" ∧
    (login_route (fun p => p) (fun a b => a == b) dbAlice (some "bob") (some " ")).1 =
      LoginResp.accountCreated := by
  exact ⟨rfl, rfl⟩

/-- Claim C6 (amended): `POST /login` fails with InvalidInput (HTTP 400)
exactly when the username is absent or empty after trimming, or the password
is absent or the empty string; the password is not trimmed, so a
whitespace-only password is not rejected. -/
theorem C6_login_invalid_input_iff (hash : String → String)
    (chk : String → String → Bool) (db : DB) (username0 password0 : Option String) :
    (login_route hash chk db username0 password0).1 = LoginResp.badRequest ↔
      (pyStrip (username0.getD "") = "" ∨ password0.getD "" = "") := by
  unfold login_route
  by_cases hu : pyStrip (username0.getD "") = ""
  · simp [hu]
  · by_cases hp : password0.getD "" = ""
    · simp [hu, hp]
    · have hu2 : (pyStrip (username0.getD "") == "") = false := by simpa using hu
      have hp2 : (password0.getD "" == "") = false := by simpa using hp
      simp only [hu2, hp2, Bool.or_self, Bool.false_eq_true, if_false]
      cases h : findUserByName db (pyStrip (username0.getD "")) with
      | none => simp [hu, hp]
      | some u =>
        by_cases hc : chk u.password (password0.getD "") = true <;> simp [hc, hu, hp]

/-! ## Claim C1: the hard blocklist gate -/

/-- The first hard-blocklist match of the `comment()` route: the
manipulation/abuse-pattern list is scanned first, then the large toxic-word
list, each in source order; the first match wins. -/
def findBlockMatch (low : String) : Option String :=
  match hf_toxic_patterns.find? (fun pat => strHasSub low pat) with
  | some pat => some pat
  | none => toxic_words.find? (fun w => strHasSub low w)

/-- Claim C1: for every `POST /comment` with a known username, an existing
post and non-empty text whose lower-cased text contains a hard-blocklist term
(patterns list first, then word list, first match wins), the response is
`{warning: true, type: "toxic", toxicity_score: null, toxicity_category:
"manual", detected_word: <match>}`, nothing is inserted, and the `confirm`
flag is irrelevant (it is universally quantified here). -/
theorem C1_hard_blocklist_blocks (mr : Option (String × ℚ)) (db : DB)
    (username0 : String) (post_id : Nat) (text0 : String) (confirm : Bool)
    (now : String) (u : User) (p : Post) (w : String)
    (hname : pyStrip username0 ≠ "")
    (hpid : post_id ≠ 0)
    (htext : pyStrip text0 ≠ "")
    (hu : findUserByName db (pyStrip username0) = some u)
    (hp : findPostById db post_id = some p)
    (hblock : findBlockMatch (pyLower (pyStrip text0)) = some w) :
    comment_route mr db username0 post_id text0 confirm now =
      (CommentResp.warn true "toxic" none (some "manual") (some w), db) := by
  unfold comment_route
  have h1 : (pyStrip username0 == "") = false := by simpa using hname
  have h2 : (post_id == 0) = false := by simpa using hpid
  have h3 : (pyStrip text0 == "") = false := by simpa using htext
  simp only [h1, h2, h3, Bool.or_self, Bool.or_false, Bool.false_or, Bool.false_eq_true,
    if_false, hu, hp]
  unfold findBlockMatch at hblock
  cases hf : hf_toxic_patterns.find? (fun pat => strHasSub (pyLower (pyStrip text0)) pat) with
  | some pat =>
    rw [hf] at hblock
    simp only [Option.some.injEq] at hblock
    subst hblock
    simp [hf]
  | none =>
    rw [hf] at hblock
    have hblock2 : toxic_words.find? (fun w => strHasSub (pyLower (pyStrip text0)) w) =
        some w := hblock
    simp only [hblock2]

/-- Concrete instance of C1: `"This is NSFW content"` matches the blocklist
term `"nsfw"` and is blocked even with `confirm = true`, leaving the database
unchanged. -/
theorem C1_hard_blocklist_blocks_witness :
    findBlockMatch (pyLower (pyStrip "This is NSFW content")) = some "nsfw" ∧
    comment_route none dbAlice "alice" 1 "This is NSFW content" true "t1" =
      (CommentResp.warn true "toxic" none (some "manual") (some "nsfw"), dbAlice) := by
  refine ⟨by decide, ?_⟩
  exact C1_hard_blocklist_blocks none dbAlice "alice" 1 "This is NSFW content" true "t1"
    { id := 1, username := "alice", password := "h1" }
    { id := 1, user_id := 1, image_url := "img", caption := none, created_at := "t0" }
    "nsfw" (by decide) (by decide) (by decide) (by decide) (by decide) (by decide)

/-! ## Claim C2: the scored-toxicity confirmation workflow -/

/-- Claim C2: for every `POST /comment` that passes the hard blocklist and
resolves its user and post (`text` below denotes the gateway-trimmed text
field, cf. §4.6 of the spec):
* if `compute_toxicity` judges it toxic and `confirm` is false, the response
  is `{warning: true, type: "toxic", toxicity_score: round(score, 3),
  toxicity_category: category, detected_word: null}` and the database is
  unchanged;
* if toxic and `confirm` is true, exactly one comment row is appended, with
  `original_text` the submitted text, `masked_text` the custom-word mask when
  it differs from the text and the hard-hide placeholder otherwise, and the
  response is `{status: "ok"}`;
* if not toxic, for either `confirm` value exactly one row is appended with
  `masked_text` null. -/
theorem C2_comment_confirmation_workflow (mr : Option (String × ℚ)) (db : DB)
    (username0 : String) (post_id : Nat) (text0 : String) (now : String)
    (u : User) (p : Post)
    (hname : pyStrip username0 ≠ "")
    (hpid : post_id ≠ 0)
    (htext : pyStrip text0 ≠ "")
    (hu : findUserByName db (pyStrip username0) = some u)
    (hp : findPostById db post_id = some p)
    (hblock : findBlockMatch (pyLower (pyStrip text0)) = none) :
    ((compute_toxicity mr (pyStrip text0)).final_toxic = true →
      comment_route mr db username0 post_id text0 false now =
        (CommentResp.warn true "toxic"
          (some (round3 (compute_toxicity mr (pyStrip text0)).score))
          (compute_toxicity mr (pyStrip text0)).category none, db)) ∧
    ((compute_toxicity mr (pyStrip text0)).final_toxic = true →
      comment_route mr db username0 post_id text0 true now =
        (CommentResp.ok,
          { db with comments := db.comments ++
              [ { id := nextId (db.comments.map CommentRow.id), post_id := post_id,
                  user_id := u.id, username := some u.username, text := pyStrip text0,
                  original_text := some (pyStrip text0),
                  masked_text := some
                    (if mask_toxic_words (pyStrip text0) none ≠ pyStrip text0 then
                      mask_toxic_words (pyStrip text0) none
                     else hard_hide_message),
                  toxicity_score := some (compute_toxicity mr (pyStrip text0)).score,
                  toxicity_category := (compute_toxicity mr (pyStrip text0)).category,
                  toxicity_reasons := none, toxicity := some "toxic",
                  category := (compute_toxicity mr (pyStrip text0)).category,
                  score := some (compute_toxicity mr (pyStrip text0)).score,
                  created_at := now } ] })) ∧
    ((compute_toxicity mr (pyStrip text0)).final_toxic = false → ∀ confirm : Bool,
      comment_route mr db username0 post_id text0 confirm now =
        (CommentResp.ok,
          { db with comments := db.comments ++
              [ { id := nextId (db.comments.map CommentRow.id), post_id := post_id,
                  user_id := u.id, username := some u.username, text := pyStrip text0,
                  original_text := some (pyStrip text0), masked_text := none,
                  toxicity_score := some (compute_toxicity mr (pyStrip text0)).score,
                  toxicity_category := (compute_toxicity mr (pyStrip text0)).category,
                  toxicity_reasons := none, toxicity := some "non-toxic",
                  category := (compute_toxicity mr (pyStrip text0)).category,
                  score := some (compute_toxicity mr (pyStrip text0)).score,
                  created_at := now } ] })) := by
  have h1 : (pyStrip username0 == "") = false := by simpa using hname
  have h2 : (post_id == 0) = false := by simpa using hpid
  have h3 : (pyStrip text0 == "") = false := by simpa using htext
  unfold findBlockMatch at hblock
  have hf : hf_toxic_patterns.find? (fun pat => strHasSub (pyLower (pyStrip text0)) pat)
      = none := by
    cases hf : hf_toxic_patterns.find?
        (fun pat => strHasSub (pyLower (pyStrip text0)) pat) with
    | none => rfl
    | some pat => rw [hf] at hblock; simp at hblock
  rw [hf] at hblock
  have hw : toxic_words.find? (fun w => strHasSub (pyLower (pyStrip text0)) w) = none :=
    hblock
  refine ⟨fun htox => ?_, fun htox => ?_, fun htox confirm => ?_⟩
  · unfold comment_route
    simp only [h1, h2, h3, Bool.or_self, Bool.or_false, Bool.false_or, Bool.false_eq_true,
      if_false, hu, hp, hf, hw, htox]
    simp
  · unfold comment_route
    simp only [h1, h2, h3, Bool.or_self, Bool.or_false, Bool.false_or, Bool.false_eq_true,
      if_false, hu, hp, hf, hw, htox]
    simp only [Bool.not_true, Bool.and_false, Bool.false_eq_true, if_false, bne_iff_ne]
    simp
  · unfold comment_route
    simp only [h1, h2, h3, Bool.or_self, Bool.or_false, Bool.false_or, Bool.false_eq_true,
      if_false, hu, hp, hf, hw, htox]
    simp

/-- Concrete instance of C2 on `"i hate you"` (rule-toxic via the custom word
`"hate"`, not hard-blocklisted): unconfirmed submission warns with score 0.7
and category `"insults"` and inserts nothing; confirmed submission inserts one
masked row. -/
theorem C2_comment_confirmation_workflow_witness :
    (compute_toxicity none (pyStrip "i hate you")).final_toxic = true ∧
    comment_route none dbAlice "alice" 1 "i hate you" false "t1" =
      (CommentResp.warn true "toxic"
        (some (round3 (compute_toxicity none (pyStrip "i hate you")).score))
        (compute_toxicity none (pyStrip "i hate you")).category none, dbAlice) ∧
    (comment_route none dbAlice "alice" 1 "i hate you" true "t1").2.comments.length =
      dbAlice.comments.length + 1 := by
  have h := C2_comment_confirmation_workflow none dbAlice "alice" 1 "i hate you" "t1"
    { id := 1, username := "alice", password := "h1" }
    { id := 1, user_id := 1, image_url := "img", caption := none, created_at := "t0" }
    (by decide) (by decide) (by decide) (by decide) (by decide) (by decide)
  refine ⟨by decide, h.1 (by decide), ?_⟩
  rw [h.2.1 (by decide)]
  simp

/-! ## Claim C10: blank viewer gets the masked view of every toxic comment -/

/-- Claim C10: when the `viewer` query parameter of `GET /comments/<post_id>`
is absent or blank after trimming, no comment is treated as authored by the
viewer: every comment judged toxic (stored label `"toxic"` or stored score
≥ 0.6) is rendered through the masked branch — the stored masked text, or a
freshly computed mask of the original — regardless of who its author is, and
in particular also for the comment's actual author. -/
theorem C10_blank_viewer_never_author (db : DB) (post_id : Nat)
    (viewer0 : Option String) (post : Post) (owner : User)
    (hv : pyStrip (viewer0.getD "") = "")
    (hp : findPostById db post_id = some post)
    (ho : findUserById db post.user_id = some owner) :
    get_comments_route db post_id viewer0 =
      CommentsResp.ok post_id ((db.comments.filter (fun c => c.post_id == post_id)).map
        (fun r =>
          { id := r.id, author := commentAuthor db r,
            text :=
              if commentIsToxic r then
                pyOrS r.masked_text
                  (mask_toxic_words (pyOrS r.original_text (pyOrS (some r.text) "")) none)
              else pyOrS r.original_text r.text,
            created_at := r.created_at })) := by
  unfold get_comments_route
  simp only [hp, ho, hv]
  congr 1

/-- Concrete instance of C10: a toxic comment authored by `"alice"` is shown
masked when the `viewer` parameter is absent — including to `"alice"`
herself. -/
theorem C10_blank_viewer_never_author_witness :
    get_comments_route
      { users := [ { id := 1, username := "alice", password := "h1" } ],
        posts := [ { id := 1, user_id := 1, image_url := "img", caption := none,
                     created_at := "t0" } ],
        comments := [ { id := 1, post_id := 1, user_id := 1, username := some "alice",
                        text := "i hate you", original_text := some "i hate you",
                        masked_text := some "i **** you",
                        toxicity_score := some (mkRat 7 10),
                        toxicity_category := some "insults", toxicity_reasons := none,
                        toxicity := some "toxic", category := some "insults",
                        score := some (mkRat 7 10), created_at := "t1" } ],
        likes := [] } 1 none =
      CommentsResp.ok 1
        [ { id := 1, author := "alice", text := "i **** you", created_at := "t1" } ] := by
  have h := C10_blank_viewer_never_author
    { users := [ { id := 1, username := "alice", password := "h1" } ],
      posts := [ { id := 1, user_id := 1, image_url := "img", caption := none,
                   created_at := "t0" } ],
      comments := [ { id := 1, post_id := 1, user_id := 1, username := some "alice",
                      text := "i hate you", original_text := some "i hate you",
                      masked_text := some "i **** you",
                      toxicity_score := some (mkRat 7 10),
                      toxicity_category := some "insults", toxicity_reasons := none,
                      toxicity := some "toxic", category := some "insults",
                      score := some (mkRat 7 10), created_at := "t1" } ],
      likes := [] } 1 none
    { id := 1, user_id := 1, image_url := "img", caption := none, created_at := "t0" }
    { id := 1, username := "alice", password := "h1" }
    (by decide) (by decide) (by decide)
  rw [h]
  decide

/-! ## Claim C7: like toggling -/

/-- Number of like rows for a (post, user) pair
(`SELECT ... FROM likes WHERE post_id = ? AND user_id = ?`). -/
def countPair (likes : List LikeRow) (pid uid : Nat) : Nat :=
  likes.countP (fun l => l.post_id == pid && l.user_id == uid)

/-- Number of like rows of a post (`SELECT COUNT(*) FROM likes WHERE post_id = ?`). -/
def countPost (likes : List LikeRow) (pid : Nat) : Nat :=
  likes.countP (fun l => l.post_id == pid)

theorem countP_split {α : Type} (p q : α → Bool) (himp : ∀ a, q a = true → p a = true)
    (l : List α) :
    l.countP (fun a => p a && !q a) + l.countP q = l.countP p := by
  induction l with
  | nil => simp
  | cons x xs ih =>
    by_cases hq : q x = true
    · have hp := himp x hq
      simp [List.countP_cons, hq, hp]
      omega
    · have hq2 : q x = false := by simpa using hq
      by_cases hp : p x = true
      · simp [List.countP_cons, hq2, hp]
        omega
      · have hp2 : p x = false := by simpa using hp
        simp [List.countP_cons, hq2, hp2]
        omega

theorem countP_filter_not_disjoint {α : Type} (p q : α → Bool)
    (hdisj : ∀ a, p a = true → q a = false) (l : List α) :
    (l.filter (fun a => !q a)).countP p = l.countP p := by
  rw [List.countP_filter]
  apply List.countP_congr
  intro a _
  by_cases hp : p a = true
  · simp [hp, hdisj a hp]
  · have : p a = false := by simpa using hp
    simp [this]

theorem find?_none_iff_countP_zero {α : Type} (p : α → Bool) (l : List α) :
    l.find? p = none ↔ l.countP p = 0 := by
  rw [List.find?_eq_none, List.countP_eq_zero]

theorem countP_mono_imp {α : Type} (p q : α → Bool) (himp : ∀ a, p a = true → q a = true)
    (l : List α) : l.countP p ≤ l.countP q := by
  induction l with
  | nil => simp
  | cons x xs ih =>
    by_cases hp : p x = true
    · simp [List.countP_cons, hp, himp x hp]; omega
    · have hp2 : p x = false := by simpa using hp
      simp [List.countP_cons, hp2]
      by_cases hq : q x = true
      · simp [hq]; omega
      · have hq2 : q x = false := by simpa using hq
        simp [hq2]; omega

/-- `like_route` with its validations discharged, expressed as a case split on
the existing like row. -/
theorem like_route_unfold (db : DB) (username0 : String) (post_id : Nat) (now : String)
    (u : User)
    (hname : pyStrip username0 ≠ "") (hpid : post_id ≠ 0)
    (hu : findUserByName db (pyStrip username0) = some u)
    (hp : ∃ p, findPostById db post_id = some p) :
    like_route db username0 post_id now =
      (match db.likes.find? (fun l => l.post_id == post_id && l.user_id == u.id) with
       | some _ =>
         (LikeResp.likes
            ((db.likes.filter
                (fun l => !(l.post_id == post_id && l.user_id == u.id))).countP
              (fun l => l.post_id == post_id)),
          { db with likes := db.likes.filter (fun l => !(l.post_id == post_id && l.user_id == u.id)) })
       | none =>
         (LikeResp.likes
            ((db.likes ++ [ ({ id := nextId (db.likes.map LikeRow.id), post_id := post_id,
                               user_id := u.id, created_at := now } : LikeRow) ]).countP
              (fun l => l.post_id == post_id)),
          { db with likes := db.likes ++ [ ({ id := nextId (db.likes.map LikeRow.id), post_id := post_id, user_id := u.id, created_at := now } : LikeRow) ] })) := by
  obtain ⟨p, hp⟩ := hp
  unfold like_route
  have h1 : (pyStrip username0 == "") = false := by simpa using hname
  have h2 : (post_id == 0) = false := by simpa using hpid
  simp only [h1, h2, Bool.or_self, Bool.or_false, Bool.false_or, Bool.false_eq_true,
    if_false, hu, hp]
  cases hfind : db.likes.find? (fun l => l.post_id == post_id && l.user_id == u.id) <;>
    simp [hfind]

/-- Claim C7: for an existing user and post (with the schema's
UNIQUE(post_id, user_id) invariant), a single `POST /like` flips the presence
of the (post, user) like row — deleting it if present, inserting it if absent
— and returns the post's like count after the toggle, which differs from the
pre-call count by exactly one; two successive calls restore every (post, user)
pair count and return the original like count. -/
theorem C7_like_toggle_roundtrip (db : DB) (username0 : String) (post_id : Nat)
    (now1 now2 : String) (u : User) (p : Post)
    (hname : pyStrip username0 ≠ "") (hpid : post_id ≠ 0)
    (hu : findUserByName db (pyStrip username0) = some u)
    (hp : findPostById db post_id = some p)
    (huniq : countPair db.likes post_id u.id ≤ 1) :
    (countPair db.likes post_id u.id = 1 →
      (like_route db username0 post_id now1).1 =
          LikeResp.likes (countPost db.likes post_id - 1) ∧
        1 ≤ countPost db.likes post_id ∧
        (like_route db username0 post_id now1).2.likes =
          db.likes.filter (fun l => !(l.post_id == post_id && l.user_id == u.id)) ∧
        countPair (like_route db username0 post_id now1).2.likes post_id u.id = 0) ∧
    (countPair db.likes post_id u.id = 0 →
      (like_route db username0 post_id now1).1 =
          LikeResp.likes (countPost db.likes post_id + 1) ∧
        (like_route db username0 post_id now1).2.likes =
          db.likes ++ [ { id := nextId (db.likes.map LikeRow.id), post_id := post_id,
                          user_id := u.id, created_at := now1 } ] ∧
        countPair (like_route db username0 post_id now1).2.likes post_id u.id = 1) ∧
    ((like_route (like_route db username0 post_id now1).2 username0 post_id now2).1 =
        LikeResp.likes (countPost db.likes post_id) ∧
      ∀ pid uid : Nat,
        countPair
            (like_route (like_route db username0 post_id now1).2 username0 post_id
              now2).2.likes pid uid =
          countPair db.likes pid uid) := by
  have hru1 := like_route_unfold db username0 post_id now1 u hname hpid hu ⟨p, hp⟩
  have himel : ∀ l : LikeRow,
      (l.post_id == post_id && l.user_id == u.id) = true → (l.post_id == post_id) = true := by
    intro l h
    exact (Bool.and_elim_left h)
  refine ⟨fun hc1 => ?_, fun hc0 => ?_, ?_⟩
  · -- present: delete
    have hfind : db.likes.find? (fun l => l.post_id == post_id && l.user_id == u.id) ≠
        none := by
      intro hn
      rw [find?_none_iff_countP_zero] at hn
      unfold countPair at hc1
      omega
    cases hf : db.likes.find? (fun l => l.post_id == post_id && l.user_id == u.id) with
    | none => exact absurd hf hfind
    | some l0 =>
      simp only [hru1, hf]
      have hcount : (db.likes.filter
          (fun l => !(l.post_id == post_id && l.user_id == u.id))).countP
            (fun l => l.post_id == post_id) = countPost db.likes post_id - 1 := by
        rw [List.countP_filter]
        have := countP_split (fun l : LikeRow => l.post_id == post_id)
          (fun l => l.post_id == post_id && l.user_id == u.id) himel db.likes
        unfold countPair at hc1
        unfold countPost
        omega
      have hle : 1 ≤ countPost db.likes post_id := by
        have := countP_mono_imp (fun l : LikeRow => l.post_id == post_id && l.user_id == u.id)
          (fun l => l.post_id == post_id) himel db.likes
        unfold countPair at hc1
        unfold countPost
        omega
      refine ⟨by rw [hcount], hle, by trivial, ?_⟩
      unfold countPair
      rw [List.countP_filter, List.countP_eq_zero]
      intro a _
      cases h : (a.post_id == post_id && a.user_id == u.id) <;> simp [h]
  · -- absent: insert
    have hf : db.likes.find? (fun l => l.post_id == post_id && l.user_id == u.id) = none := by
      rw [find?_none_iff_countP_zero]
      exact hc0
    simp only [hru1, hf]
    refine ⟨?_, by trivial, ?_⟩
    · rw [List.countP_append]
      unfold countPost
      simp
    · unfold countPair
      rw [List.countP_append]
      unfold countPair at hc0
      simp [hc0]
  · -- round trip
    by_cases hc : countPair db.likes post_id u.id = 0
    · -- first call inserts, second deletes and restores the exact list
      have hf1 : db.likes.find? (fun l => l.post_id == post_id && l.user_id == u.id) =
          none := by
        rw [find?_none_iff_countP_zero]; exact hc
      have hall : ∀ l ∈ db.likes, (l.post_id == post_id && l.user_id == u.id) = false := by
        unfold countPair at hc
        rw [List.countP_eq_zero] at hc
        intro l hl
        simpa using hc l hl
      simp only [hru1, hf1]
      set new1 : LikeRow :=
        { id := nextId (db.likes.map LikeRow.id), post_id := post_id,
          user_id := u.id, created_at := now1 } with hnew1
      have hru2 := like_route_unfold
        { db with likes := db.likes ++ [new1] } username0 post_id now2 u hname hpid hu
        ⟨p, hp⟩
      have hf2 : (db.likes ++ [new1]).find?
          (fun l => l.post_id == post_id && l.user_id == u.id) ≠ none := by
        intro hn
        rw [find?_none_iff_countP_zero, List.countP_append] at hn
        simp [hnew1] at hn
      cases hf2e : (db.likes ++ [new1]).find?
          (fun l => l.post_id == post_id && l.user_id == u.id) with
      | none => exact absurd hf2e hf2
      | some l0 =>
        have hfilter : (db.likes ++ [new1]).filter
            (fun l => !(l.post_id == post_id && l.user_id == u.id)) = db.likes := by
          rw [List.filter_append]
          have h1 : db.likes.filter
              (fun l => !(l.post_id == post_id && l.user_id == u.id)) = db.likes := by
            rw [List.filter_eq_self]
            intro a ha
            simp [hall a ha]
          have h2 : [new1].filter
              (fun l => !(l.post_id == post_id && l.user_id == u.id)) = [] := by
            simp [hnew1]
          rw [h1, h2, List.append_nil]
        simp only [hru2, hf2e, hfilter]
        exact ⟨by trivial, fun pid uid => by trivial⟩
    · -- first call deletes, second re-inserts; pair counts return to 1
      have hc1 : countPair db.likes post_id u.id = 1 := by omega
      have hfind : db.likes.find? (fun l => l.post_id == post_id && l.user_id == u.id) ≠
          none := by
        intro hn
        rw [find?_none_iff_countP_zero] at hn
        unfold countPair at hc1
        omega
      cases hf : db.likes.find? (fun l => l.post_id == post_id && l.user_id == u.id) with
      | none => exact absurd hf hfind
      | some l0 =>
        simp only [hru1, hf]
        set rest : List LikeRow := db.likes.filter
          (fun l => !(l.post_id == post_id && l.user_id == u.id)) with hrest
        have hcp0 : countPair rest post_id u.id = 0 := by
          unfold countPair
          rw [hrest, List.countP_filter]
          rw [List.countP_eq_zero]
          intro a _
          cases a.post_id == post_id && a.user_id == u.id <;> simp
        have hru2 := like_route_unfold
          { db with likes := rest } username0 post_id now2 u hname hpid hu ⟨p, hp⟩
        have hf2 : rest.find? (fun l => l.post_id == post_id && l.user_id == u.id) =
            none := by
          rw [find?_none_iff_countP_zero]
          exact hcp0
        simp only [hru2, hf2]
        set new2 : LikeRow :=
          { id := nextId (rest.map LikeRow.id), post_id := post_id,
            user_id := u.id, created_at := now2 } with hnew2
        constructor
        · -- returned count = original count
          rw [List.countP_append]
          have hsplit := countP_split (fun l : LikeRow => l.post_id == post_id)
            (fun l => l.post_id == post_id && l.user_id == u.id) himel db.likes
          have hrestc : rest.countP (fun l => l.post_id == post_id) =
              countPost db.likes post_id - 1 := by
            rw [hrest, List.countP_filter]
            unfold countPair at hc1
            unfold countPost
            omega
          have hle : 1 ≤ countPost db.likes post_id := by
            have := countP_mono_imp
              (fun l : LikeRow => l.post_id == post_id && l.user_id == u.id)
              (fun l => l.post_id == post_id) himel db.likes
            unfold countPair at hc1
            unfold countPost
            omega
          have hnewc : ([new2] : List LikeRow).countP (fun l => l.post_id == post_id) = 1 := by
            simp [hnew2]
          rw [hrestc, hnewc]
          congr 1
          omega
        · -- pair counts restored
          intro pid uid
          unfold countPair
          rw [List.countP_append]
          by_cases hsame : pid = post_id ∧ uid = u.id
          · obtain ⟨hpidq, huidq⟩ := hsame
            rw [hpidq, huidq]
            have h1 : rest.countP (fun l => l.post_id == post_id && l.user_id == u.id) = 0 :=
              hcp0
            have h2 : ([new2] : List LikeRow).countP
                (fun l => l.post_id == post_id && l.user_id == u.id) = 1 := by
              simp [hnew2]
            rw [h1, h2]
            unfold countPair at hc1
            omega
          · have hdisj : ∀ a : LikeRow, (a.post_id == pid && a.user_id == uid) = true →
                (a.post_id == post_id && a.user_id == u.id) = false := by
              intro a ha
              simp only [Bool.and_eq_true, beq_iff_eq] at ha
              by_contra hcon
              simp only [Bool.not_eq_false, Bool.and_eq_true, beq_iff_eq] at hcon
              exact hsame ⟨by omega, by omega⟩
            have h1 : rest.countP (fun l => l.post_id == pid && l.user_id == uid) =
                db.likes.countP (fun l => l.post_id == pid && l.user_id == uid) := by
              rw [hrest]
              exact countP_filter_not_disjoint _ _ hdisj db.likes
            have h2 : ([new2] : List LikeRow).countP
                (fun l => l.post_id == pid && l.user_id == uid) = 0 := by
              have := hdisj new2
              simp only [List.countP_cons, List.countP_nil]
              by_cases hq : (new2.post_id == pid && new2.user_id == uid) = true
              · have := this hq
                simp [hnew2] at this
              · simp only [hq]
                simp at hq
                simp [hq]
            rw [h1, h2]
            omega

/-- Concrete instance of C7 on an empty like table: the first call returns
count 1, the second returns the original count 0. -/
theorem C7_like_toggle_roundtrip_witness :
    countPair dbAlice.likes 1 1 = 0 ∧
    (like_route dbAlice "alice" 1 "t1").1 = LikeResp.likes (countPost dbAlice.likes 1 + 1) ∧
    (like_route (like_route dbAlice "alice" 1 "t1").2 "alice" 1 "t2").1 =
      LikeResp.likes (countPost dbAlice.likes 1) := by
  have h := C7_like_toggle_roundtrip dbAlice "alice" 1 "t1" "t2"
    { id := 1, username := "alice", password := "h1" }
    { id := 1, user_id := 1, image_url := "img", caption := none, created_at := "t0" }
    (by decide) (by decide) (by decide) (by decide) (by decide)
  exact ⟨by decide, (h.2.1 (by decide)).1, h.2.2.1⟩

/-! ## Claim C3: `check_toxicity` against the spec's reference definition -/

theorem pyMax_eq_max (a b : ℚ) : pyMax a b = max a b := by
  unfold pyMax
  rcases le_or_lt b a with h | h
  · rw [if_neg (not_lt.mpr h), max_eq_left h]
  · rw [if_pos h, max_eq_right h.le]

theorem le_foldl_pyMax (l : List ℚ) : ∀ a : ℚ, a ≤ l.foldl pyMax a := by
  induction l with
  | nil => intro a; simp
  | cons v vs ih =>
    intro a
    rw [List.foldl_cons]
    exact le_trans (by rw [pyMax_eq_max]; exact le_max_left a v) (ih (pyMax a v))

theorem find?_cons_pos {α : Type} (p : α → Bool) (a : α) (l : List α) (h : p a = true) :
    (a :: l).find? p = some a :=
  List.find?_cons_of_pos l h

theorem find?_cons_neg {α : Type} (p : α → Bool) (a : α) (l : List α) (h : p a = false) :
    (a :: l).find? p = l.find? p :=
  List.find?_cons_of_neg l (by simp [h])

/-- `pyMaxBySnd` computes the running maximum of the values and returns the
first item achieving it (Python `max(items, key=...)`). -/
theorem pyMaxBySnd_spec (xs : List (String × ℚ)) :
    ∀ x : String × ℚ,
      (pyMaxBySnd (x :: xs)).2 = (xs.map Prod.snd).foldl pyMax x.2 ∧
      (x :: xs).find? (fun kv => kv.2 == (pyMaxBySnd (x :: xs)).2) =
        some (pyMaxBySnd (x :: xs)) := by
  induction xs with
  | nil =>
    intro x
    refine ⟨rfl, ?_⟩
    simp [pyMaxBySnd]
  | cons y ys ih =>
    intro x
    have hstep : pyMaxBySnd (x :: y :: ys) =
        pyMaxBySnd ((if y.2 > x.2 then y else x) :: ys) := rfl
    obtain ⟨ihv, ihf⟩ := ih (if y.2 > x.2 then y else x)
    have hsnd : (if y.2 > x.2 then y else x).2 = pyMax x.2 y.2 := by
      unfold pyMax
      by_cases h : y.2 > x.2 <;> simp [h]
    have hge : (if y.2 > x.2 then y else x).2 ≤
        (pyMaxBySnd ((if y.2 > x.2 then y else x) :: ys)).2 := by
      rw [ihv]
      exact le_foldl_pyMax _ _
    constructor
    · rw [hstep, ihv, List.map_cons, List.foldl_cons, hsnd]
    · rw [hstep]
      by_cases hy : y.2 > x.2
      · simp only [hy, if_true] at ihv ihf hge ⊢
        have hxlt : x.2 < (pyMaxBySnd (y :: ys)).2 := lt_of_lt_of_le hy hge
        have hxne : (x.2 == (pyMaxBySnd (y :: ys)).2) = false := by
          rw [beq_eq_false_iff_ne]
          exact ne_of_lt hxlt
        rw [find?_cons_neg (fun kv => kv.2 == (pyMaxBySnd (y :: ys)).2) x (y :: ys) hxne]
        exact ihf
      · simp only [hy, if_false] at ihv ihf hge ⊢
        by_cases hx : (x.2 == (pyMaxBySnd (x :: ys)).2) = true
        · have hb : pyMaxBySnd (x :: ys) = x := by
            have h2 := ihf
            rw [find?_cons_pos (fun kv => kv.2 == (pyMaxBySnd (x :: ys)).2) x ys hx] at h2
            exact (Option.some.inj h2).symm
          rw [find?_cons_pos (fun kv => kv.2 == (pyMaxBySnd (x :: ys)).2) x (y :: ys) hx]
          rw [hb]
        · have hx2 : (x.2 == (pyMaxBySnd (x :: ys)).2) = false := by
            simpa using hx
          have hyle : y.2 ≤ x.2 := not_lt.mp hy
          have hyne : (y.2 == (pyMaxBySnd (x :: ys)).2) = false := by
            rw [beq_eq_false_iff_ne]
            intro hcon
            have hxb : x.2 = (pyMaxBySnd (x :: ys)).2 :=
              le_antisymm hge (by rw [← hcon]; exact hyle)
            rw [beq_eq_false_iff_ne] at hx2
            exact hx2 hxb
          rw [find?_cons_neg (fun kv => kv.2 == (pyMaxBySnd (x :: ys)).2) x (y :: ys) hx2]
          rw [find?_cons_neg (fun kv => kv.2 == (pyMaxBySnd (x :: ys)).2) y ys hyne]
          have h2 := ihf
          rw [find?_cons_neg (fun kv => kv.2 == (pyMaxBySnd (x :: ys)).2) x ys hx2] at h2
          exact h2

/-- The first key in declaration order achieving the value `m` (the spec's
"first maximal key, declaration order"). -/
def firstMaxKey (items : List (String × ℚ)) (m : ℚ) : String :=
  ((items.find? (fun kv => kv.2 == m)).map Prod.fst).getD ""

theorem pyMaxBySnd_dominant (x : String × ℚ) (xs : List (String × ℚ)) :
    (pyMaxBySnd (x :: xs)).1 =
      firstMaxKey (x :: xs) (listMaxQ ((x :: xs).map Prod.snd)) := by
  obtain ⟨hv, hf⟩ := pyMaxBySnd_spec xs x
  unfold firstMaxKey
  have hm : listMaxQ ((x :: xs).map Prod.snd) = (pyMaxBySnd (x :: xs)).2 := by
    rw [List.map_cons]
    show (xs.map Prod.snd).foldl pyMax x.2 = _
    rw [hv]
  rw [hm, hf]
  rfl

/-- The rule score as the spec words it: the maximum of the seven category
scores. -/
def refRuleScore (c : RuleCats) : ℚ :=
  max c.insults (max c.sarcasm (max c.harassment (max c.profanity
    (max c.body_shaming (max c.disrespect_emojis c.indirect_negative)))))

theorem listMaxQ_catItems (c : RuleCats) :
    listMaxQ ((catItems c).map Prod.snd) = refRuleScore c := by
  unfold listMaxQ catItems refRuleScore
  simp only [List.map_cons, List.map_nil, List.foldl_cons, List.foldl_nil, pyMax_eq_max]
  rw [max_assoc, max_assoc, max_assoc, max_assoc, max_assoc]

/-- The rule-category scores exactly as the spec's trigger table describes
them: each category scored independently from its trigger, and a custom-word
hit raising `insults` and `profanity` to at least 0.65 (never lowering). -/
def refRuleCats (custom_flag : Bool) (t : String) : RuleCats :=
  let low := pyLower t
  let toks := pySplit low
  { insults :=
      pyMax (if RB_INSULT_WORDS.any (fun w => toks.contains w) then mkRat 7 10 else 0)
        (if custom_flag then mkRat 13 20 else 0),
    sarcasm :=
      if RB_SARCASM_PATTERNS.any (fun pat => reSearch pat low) then mkRat 6 10 else 0,
    harassment :=
      if RB_HARASSMENT_PHRASES.any (fun ph => strHasSub low ph) then mkRat 7 10 else 0,
    profanity :=
      pyMax (if RB_PROFANITY_WORDS.any (fun w => toks.contains w) then mkRat 6 10 else 0)
        (if custom_flag then mkRat 13 20 else 0),
    body_shaming :=
      if RB_BODY_SHAMING_WORDS.any (fun w => toks.contains w) then mkRat 7 10 else 0,
    disrespect_emojis :=
      if RB_EMOJI_DISRESPECT.any (fun e => strHasSub t e) then mkRat 6 10 else 0,
    indirect_negative :=
      if RB_INDIRECT_NEGATIVE_PATTERNS.any (fun pat => reSearch pat low) then mkRat 6 10
      else 0 }

theorem score_rule_based_categories (cf : Bool) (t : String) :
    (score_rule_based cf t).categories = refRuleCats cf t := by
  unfold score_rule_based refRuleCats
  simp only [RuleCats.mk.injEq]
  refine ⟨?_, ?_, by trivial, ?_, by trivial, by trivial, ?_⟩
  · by_cases hcf : cf = true <;>
      by_cases ht : (RB_INSULT_WORDS.any
        (fun w => (pySplit (pyLower t)).contains w)) = true <;>
      simp only [hcf, ht, Bool.false_eq_true, if_true, if_false] <;> decide
  · by_cases ht : (RB_SARCASM_PATTERNS.any (fun pat => reSearch pat (pyLower t))) = true <;>
      simp only [ht, Bool.false_eq_true, if_true, if_false] <;> decide
  · by_cases hcf : cf = true <;>
      by_cases ht : (RB_PROFANITY_WORDS.any
        (fun w => (pySplit (pyLower t)).contains w)) = true <;>
      simp only [hcf, ht, Bool.false_eq_true, if_true, if_false] <;> decide
  · by_cases ht : (RB_INDIRECT_NEGATIVE_PATTERNS.any
        (fun pat => reSearch pat (pyLower t))) = true <;>
      simp only [ht, Bool.false_eq_true, if_true, if_false] <;> decide

theorem score_rule_based_rule_score (cf : Bool) (t : String) :
    (score_rule_based cf t).rule_score =
      listMaxQ ((catItems (score_rule_based cf t).categories).map Prod.snd) := rfl

theorem score_rule_based_dominant (cf : Bool) (t : String) :
    (score_rule_based cf t).dominant_category =
      (pyMaxBySnd (catItems (score_rule_based cf t).categories)).1 := rfl

theorem catItems_cons (c : RuleCats) :
    catItems c = ( "insults", c.insults ) ::
      [ ( "sarcasm", c.sarcasm ), ( "harassment", c.harassment ),
        ( "profanity", c.profanity ), ( "body_shaming", c.body_shaming ),
        ( "disrespect_emojis", c.disrespect_emojis ),
        ( "indirect_negative", c.indirect_negative ) ] := rfl

theorem rule_score_eq_ref (cf : Bool) (t : String) :
    (score_rule_based cf t).rule_score = refRuleScore (refRuleCats cf t) := by
  rw [score_rule_based_rule_score, listMaxQ_catItems, score_rule_based_categories]

theorem dominant_eq_ref (cf : Bool) (t : String) :
    (score_rule_based cf t).dominant_category =
      firstMaxKey (catItems (refRuleCats cf t)) (refRuleScore (refRuleCats cf t)) := by
  rw [score_rule_based_dominant, score_rule_based_categories, catItems_cons,
    pyMaxBySnd_dominant, ← catItems_cons, listMaxQ_catItems]

theorem status_beq_toxic (b : Bool) :
    ((if b = true then "toxic" else "clean") == "toxic") = b := by
  cases b <;> rfl

/-- The reference `check_toxicity` details, written as the spec/claim words
them: the trigger-table category scores with the custom bump (`refRuleCats`),
`rule_score` as the maximum category score, the rule-only dominant category as
the first maximal key in declaration order, `is_toxic` as the three-way
disjunction, `combined_score` as `max(model_score, rule_score, 0.85-if-only-
custom-else-0)`, and the overall dominant category by the rule-vs-model
comparison. -/
def refCheckDetails (mr : Option (String × ℚ)) (text : String) : ToxDetails :=
  let custom_flag := (find_custom_toxic_words text).1
  let cats := refRuleCats custom_flag text
  let rule_score := refRuleScore cats
  let rule_dominant := firstMaxKey (catItems cats) rule_score
  let model_label := match mr with | some lb => lb.1 | none => "model_unavailable"
  let model_score : ℚ := match mr with | some lb => lb.2 | none => 0
  let is_model_toxic :=
    strStartsWith (pyLower model_label) "toxic" && decide (model_score ≥ mkRat 6 10)
  let is_rule_toxic := decide (rule_score ≥ mkRat 6 10)
  let is_toxic := custom_flag || is_model_toxic || is_rule_toxic
  let combined_score :=
    max model_score (max rule_score
      (if custom_flag && !(is_model_toxic || is_rule_toxic) then mkRat 17 20 else 0))
  let dominant :=
    if rule_score ≥ model_score then rule_dominant
    else if is_model_toxic then "toxic"
    else if custom_flag then "custom-word"
    else "neutral"
  { model_label := model_label, model_score := model_score,
    rule_categories := cats, rule_score := rule_score,
    dominant_category := dominant, combined_score := combined_score,
    custom_hits :=
      CUSTOM_TOXIC_WORDS_SORTED.filter (fun w => (wordTokens (pyLower text)).contains w),
    final_toxic := is_toxic, category := dominant, score := combined_score }

/-- Claim C3 (amended to non-blank text): for every text containing at least
one non-whitespace character and every model outcome, the details of
`check_toxicity` coincide with the reference definition `refCheckDetails`
(trigger-table scores, custom bump, first-maximal dominant category,
three-way `is_toxic`, the combined-score formula and the rule-vs-model
dominant selection). -/
theorem C3_check_toxicity_matches_reference (mr : Option (String × ℚ)) (text : String)
    (h : pyStrip text ≠ "") :
    (check_toxicity mr text).details = some (refCheckDetails mr text) := by
  have hne2 : (pyStrip text == "") = false := by simpa using h
  have hne1 : (text == "") = false := by
    rw [beq_eq_false_iff_ne]
    intro he
    subst he
    exact h rfl
  unfold check_toxicity refCheckDetails
  simp only [hne1, hne2, Bool.or_self, Bool.false_eq_true, if_false]
  have hrs := rule_score_eq_ref (find_custom_toxic_words text).1 text
  have hdom := dominant_eq_ref (find_custom_toxic_words text).1 text
  simp only [Option.some.injEq, ToxDetails.mk.injEq]
  refine ⟨by trivial, by trivial, score_rule_based_categories _ _, hrs, ?_, ?_, by trivial,
    ?_, ?_, ?_⟩
  · rw [hrs, hdom]
  · rw [hrs, pyMax_eq_max, pyMax_eq_max, max_assoc]
  · rw [hrs, status_beq_toxic]
  · rw [hrs, hdom]
  · rw [hrs, pyMax_eq_max, pyMax_eq_max, max_assoc]

/-- Claim C3, counterexample to the claim as stated ("for every non-empty
text"): the whitespace-only text `" "` is non-empty, but `check_toxicity`
short-circuits it to the blank-input result whose details dict lacks the
scoring keys, while the reference definition (with a model outcome
`("toxic", 0.9)`) declares it toxic — the two differ. -/
theorem C3_counterexample_blank_text :
    (" " : String) ≠ "" ∧
    (check_toxicity (some ( "toxic", mkRat 9 10 )) " ").details = none ∧
    (refCheckDetails (some ( "toxic", mkRat 9 10 )) " ").final_toxic = true ∧
    (check_toxicity (some ( "toxic", mkRat 9 10 )) " ").details ≠
      some (refCheckDetails (some ( "toxic", mkRat 9 10 )) " ") := by
  refine ⟨by decide, by decide, by decide, ?_⟩
  intro hcon
  rw [show (check_toxicity (some ( "toxic", mkRat 9 10 )) " ").details = none by decide]
    at hcon
  exact Option.noConfusion hcon

/-- Concrete instance of C3 on `"i hate you"` with the model unavailable. -/
theorem C3_check_toxicity_matches_reference_witness :
    pyStrip "i hate you" ≠ "" ∧
    (check_toxicity none "i hate you").details = some (refCheckDetails none "i hate you") :=
  ⟨by decide, C3_check_toxicity_matches_reference none "i hate you" (by decide)⟩

/-! ## Claim C8: category selection of the standalone rule check -/

theorem foldl_natmax_mem (l : List Nat) : ∀ a : Nat, l.foldl Nat.max a ∈ a :: l := by
  induction l with
  | nil => intro a; simp
  | cons v vs ih =>
    intro a
    rw [List.foldl_cons]
    have hin := ih (Nat.max a v)
    rcases List.mem_cons.mp hin with h | h
    · rw [h]
      unfold Nat.max
      rcases max_choice a v with hm | hm <;> rw [hm] <;> simp
    · simp [h]

theorem foldl_natmax_ge_seed (l : List Nat) : ∀ a : Nat, a ≤ l.foldl Nat.max a := by
  induction l with
  | nil => intro a; simp
  | cons v vs ih =>
    intro a
    rw [List.foldl_cons]
    exact le_trans (Nat.le_max_left a v) (ih (Nat.max a v))

theorem foldl_natmax_le (l : List Nat) : ∀ a x : Nat, x ∈ l → x ≤ l.foldl Nat.max a := by
  induction l with
  | nil => intro a x hx; simp at hx
  | cons v vs ih =>
    intro a x hx
    rw [List.foldl_cons]
    rcases List.mem_cons.mp hx with h | h
    · subst h
      exact le_trans (Nat.le_max_right a x) (foldl_natmax_ge_seed vs (Nat.max a x))
    · exact ih (Nat.max a v) x h

theorem listMaxN_ge (l : List Nat) (x : Nat) (hx : x ∈ l) : x ≤ listMaxN l := by
  cases l with
  | nil => simp at hx
  | cons v vs =>
    unfold listMaxN
    rcases List.mem_cons.mp hx with h | h
    · subst h; exact foldl_natmax_ge_seed vs x
    · exact foldl_natmax_le vs v x h

theorem listMaxN_mem (l : List Nat) (hne : l ≠ []) : listMaxN l ∈ l := by
  cases l with
  | nil => exact absurd rfl hne
  | cons v vs =>
    unfold listMaxN
    exact foldl_natmax_mem vs v

theorem insertByIdx_mem (x a : String) (l : List String) :
    a ∈ insertByIdx x l ↔ a = x ∨ a ∈ l := by
  induction l with
  | nil => simp [insertByIdx]
  | cons y ys ih =>
    unfold insertByIdx
    by_cases h : priorityIdx y ≤ priorityIdx x
    · simp only [h, if_true, List.mem_cons, ih]
      try tauto
    · simp only [h, if_false, List.mem_cons]
      try tauto

theorem insertByIdx_sorted (x : String) (l : List String)
    (h : l.Pairwise (fun a b => priorityIdx a ≤ priorityIdx b)) :
    (insertByIdx x l).Pairwise (fun a b => priorityIdx a ≤ priorityIdx b) := by
  induction l with
  | nil => simp [insertByIdx]
  | cons y ys ih =>
    rw [List.pairwise_cons] at h
    obtain ⟨hy, hys⟩ := h
    unfold insertByIdx
    by_cases hc : priorityIdx y ≤ priorityIdx x
    · rw [if_pos hc, List.pairwise_cons]
      refine ⟨?_, ih hys⟩
      intro b hb
      rcases (insertByIdx_mem x b ys).mp hb with h | h
      · subst h; exact hc
      · exact hy b h
    · rw [if_neg hc, List.pairwise_cons]
      refine ⟨?_, List.Pairwise.cons hy hys⟩
      intro b hb
      rcases List.mem_cons.mp hb with h | h
      · subst h; omega
      · exact le_trans (by omega) (hy b h)

theorem sortByIdx_go_mem (l : List String) :
    ∀ (acc : List String) (a : String),
      a ∈ l.foldl (fun acc x => insertByIdx x acc) acc ↔ a ∈ acc ∨ a ∈ l := by
  induction l with
  | nil => intro acc a; simp
  | cons y ys ih =>
    intro acc a
    rw [List.foldl_cons, ih, insertByIdx_mem]
    simp [List.mem_cons]
    tauto

theorem sortByIdx_mem (l : List String) (a : String) : a ∈ sortByIdx l ↔ a ∈ l := by
  unfold sortByIdx
  rw [sortByIdx_go_mem]
  simp

theorem sortByIdx_go_sorted (l : List String) :
    ∀ acc : List String, acc.Pairwise (fun a b => priorityIdx a ≤ priorityIdx b) →
      (l.foldl (fun acc x => insertByIdx x acc) acc).Pairwise
        (fun a b => priorityIdx a ≤ priorityIdx b) := by
  induction l with
  | nil => intro acc h; simpa using h
  | cons y ys ih =>
    intro acc h
    rw [List.foldl_cons]
    exact ih _ (insertByIdx_sorted y acc h)

theorem sortByIdx_sorted (l : List String) :
    (sortByIdx l).Pairwise (fun a b => priorityIdx a ≤ priorityIdx b) :=
  sortByIdx_go_sorted l [] (by simp)

theorem sortByIdx_head_min (l : List String) (hne : l ≠ []) :
    (sortByIdx l).headD "" ∈ l ∧
      ∀ y ∈ l, priorityIdx ((sortByIdx l).headD "") ≤ priorityIdx y := by
  obtain ⟨a, ha⟩ := List.exists_mem_of_ne_nil l hne
  have hmem : a ∈ sortByIdx l := (sortByIdx_mem l a).mpr ha
  cases hs : sortByIdx l with
  | nil => rw [hs] at hmem; simp at hmem
  | cons z rest =>
    have hz : z ∈ l := (sortByIdx_mem l z).mp (by rw [hs]; simp)
    have hsorted := sortByIdx_sorted l
    rw [hs, List.pairwise_cons] at hsorted
    refine ⟨by simpa using hz, ?_⟩
    intro y hy
    have hy2 : y ∈ sortByIdx l := (sortByIdx_mem l y).mpr hy
    rw [hs] at hy2
    rcases List.mem_cons.mp hy2 with h | h
    · subst h; simp
    · simpa using hsorted.1 y h

/-- Claim C8: whenever the standalone library's `_rule_check` matches at
least one term (returns `(true, some cat, m)`), the reported category has the
greatest number of matched terms among all categories, and any category tying
that maximal count has a priority index no smaller than the winner's — i.e.
ties are broken by the fixed order
hate > harassment > profanity > insults > body_shaming > slang > emojis. -/
theorem C8_rule_check_max_count_priority (text cat : String) (m : List String)
    (hmatch : mod_rule_check text = (true, some cat, m)) :
    (∀ c ∈ LEX_KEYS, countOf text c ≤ countOf text cat) ∧
    (∀ c ∈ LEX_KEYS, countOf text c = countOf text cat →
      priorityIdx cat ≤ priorityIdx c) := by
  unfold mod_rule_check at hmatch
  by_cases he : ((LEX_KEYS.map (fun k => (k, countOf text k))).filter
      (fun kc => decide (0 < kc.2))).isEmpty = true
  · rw [if_pos he] at hmatch
    simp at hmatch
  · rw [if_neg he] at hmatch
    simp only [Prod.mk.injEq, Option.some.injEq, true_and] at hmatch
    obtain ⟨hcat, _hm⟩ := hmatch
    have hcne : ((LEX_KEYS.map (fun k => (k, countOf text k))).filter
        (fun kc => decide (0 < kc.2))) ≠ [] := by
      intro hnil
      rw [hnil] at he
      exact he rfl
    have hmapne : (((LEX_KEYS.map (fun k => (k, countOf text k))).filter
        (fun kc => decide (0 < kc.2))).map Prod.snd) ≠ [] := by
      intro hnil
      exact hcne (List.map_eq_nil_iff.mp hnil)
    have htopmem := listMaxN_mem _ hmapne
    obtain ⟨kc0, hkc0mem, hkc0⟩ := List.mem_map.mp htopmem
    have hkc0f := List.mem_filter.mp hkc0mem
    have htoppos : 0 < listMaxN
        ((((LEX_KEYS.map (fun k => (k, countOf text k))).filter
          (fun kc => decide (0 < kc.2)))).map Prod.snd) := by
      rw [← hkc0]
      exact of_decide_eq_true hkc0f.2
    have hkc0cand : kc0.1 ∈ (((LEX_KEYS.map (fun k => (k, countOf text k))).filter
        (fun kc => decide (0 < kc.2))).filter (fun kc => kc.2 ==
          listMaxN ((((LEX_KEYS.map (fun k => (k, countOf text k))).filter
            (fun kc => decide (0 < kc.2)))).map Prod.snd))).map Prod.fst := by
      refine List.mem_map_of_mem _ ?_
      rw [List.mem_filter]
      exact ⟨hkc0mem, by rw [hkc0]; exact beq_self_eq_true _⟩
    have hcandsne : ((((LEX_KEYS.map (fun k => (k, countOf text k))).filter
        (fun kc => decide (0 < kc.2))).filter (fun kc => kc.2 ==
          listMaxN ((((LEX_KEYS.map (fun k => (k, countOf text k))).filter
            (fun kc => decide (0 < kc.2)))).map Prod.snd))).map Prod.fst) ≠ [] := by
      intro hnil
      rw [hnil] at hkc0cand
      simp at hkc0cand
    obtain ⟨hheadmem, hheadmin⟩ := sortByIdx_head_min _ hcandsne
    rw [hcat] at hheadmem hheadmin
    -- cat is a key whose count is the top count
    obtain ⟨kc1, hkc1mem, hkc1⟩ := List.mem_map.mp hheadmem
    have hkc1f := List.mem_filter.mp hkc1mem
    have hkc1top : kc1.2 = listMaxN ((((LEX_KEYS.map (fun k => (k, countOf text k))).filter
        (fun kc => decide (0 < kc.2)))).map Prod.snd) := by
      have := hkc1f.2
      simpa using this
    have hkc1mem2 := List.mem_filter.mp hkc1f.1
    obtain ⟨k1, hk1mem, hk1⟩ := List.mem_map.mp hkc1mem2.1
    have hcatk : cat = k1 := by rw [← hkc1, ← hk1]
    have hcount : countOf text cat = listMaxN
        ((((LEX_KEYS.map (fun k => (k, countOf text k))).filter
          (fun kc => decide (0 < kc.2)))).map Prod.snd) := by
      rw [hcatk, ← hkc1top, ← hk1]
    constructor
    · intro c hc
      by_cases h0 : 0 < countOf text c
      · have hpair : (c, countOf text c) ∈ (LEX_KEYS.map (fun k => (k, countOf text k))) :=
          List.mem_map_of_mem _ hc
        have hpairf : (c, countOf text c) ∈ ((LEX_KEYS.map (fun k => (k, countOf text k))).filter
            (fun kc => decide (0 < kc.2))) := by
          rw [List.mem_filter]
          exact ⟨hpair, decide_eq_true h0⟩
        have hsnd : countOf text c ∈ (((LEX_KEYS.map (fun k => (k, countOf text k))).filter
            (fun kc => decide (0 < kc.2))).map Prod.snd) := by
          exact List.mem_map_of_mem _ hpairf
        rw [hcount]
        exact listMaxN_ge _ _ hsnd
      · omega
    · intro c hc hceq
      have h0 : 0 < countOf text c := by
        rw [hceq, hcount]
        exact htoppos
      have hpairf : (c, countOf text c) ∈ ((LEX_KEYS.map (fun k => (k, countOf text k))).filter
          (fun kc => decide (0 < kc.2))) := by
        rw [List.mem_filter]
        exact ⟨List.mem_map_of_mem _ hc, decide_eq_true h0⟩
      have hpairtop : (c, countOf text c) ∈ (((LEX_KEYS.map (fun k => (k, countOf text k))).filter
          (fun kc => decide (0 < kc.2))).filter (fun kc => kc.2 ==
            listMaxN ((((LEX_KEYS.map (fun k => (k, countOf text k))).filter
              (fun kc => decide (0 < kc.2)))).map Prod.snd))) := by
        rw [List.mem_filter]
        refine ⟨hpairf, ?_⟩
        show ((c, countOf text c).2 == _) = true
        rw [beq_iff_eq]
        show countOf text c = _
        rw [hceq, hcount]
      exact hheadmin c (List.mem_map_of_mem Prod.fst hpairtop)

/-- Concrete instance of C8: `"stupid"` matches only the `insults` lexicon. -/
theorem C8_rule_check_max_count_priority_witness :
    mod_rule_check "stupid" = (true, some "insults", [ "stupid" ]) ∧
    (∀ c ∈ LEX_KEYS, countOf "stupid" c ≤ countOf "stupid" "insults") :=
  ⟨by decide,
    (C8_rule_check_max_count_priority "stupid" "insults" [ "stupid" ] (by decide)).1⟩
